import Mathlib

/-!
Verification of the xerosdk repository's natural-language specification
against a shallow embedding of its Go source.

Embedded from source:
  * the `accounting` resource modules for contacts and accounts
    (contact.go / account.go): date conversion, find/create/update/remove;
  * the example web application's HTTP handlers (main.go): home, auth
    callback, connections, refresh, contacts, invoices, accounts.

Components of the repository that are not under the provided source tree
(the `auth` provider and transport, the `helpers` HTTP/JSON gateway, the
`connection` tenant resolver, the in-memory session repository) are
modelled from the specification; each such definition carries a doc
comment starting with "Modelled from the spec:".
-/

set_option autoImplicit false
set_option linter.unusedVariables false

namespace XeroSdk

/-- Error taxonomy of the specification (section 7): auth, connection,
fetch and session-not-found failures; each carries a message. -/
inductive SdkError where
  | authError (msg : String)
  | connectionError (msg : String)
  | fetchError (msg : String)
  | notFoundError
deriving Repr, DecidableEq

/-- Opaque identifiers (Go `uuid.UUID`) are modelled as strings. -/
abbrev UUID := String

/-- Modelled from the spec: the nil/sentinel user id (`uuid.Nil`) used as
the single user key throughout the example application. -/
def nilUUID : UUID := "00000000-0000-0000-0000-000000000000"

/-- Modelled from the spec: an OAuth2 token value (Go `oauth2.Token`)
holding access token, token type, refresh token and expiry timestamp
(unix seconds). -/
structure Token where
  AccessToken : String
  TokenType : String
  RefreshToken : String
  Expiry : Int
deriving Repr, DecidableEq

/-- Modelled from the spec: a remote organization connection
(`connection.Tenant`); only its identifier is relevant here. -/
structure Tenant where
  TenantID : UUID
deriving Repr, DecidableEq

/-- Modelled from the spec: the Token Store persists one OAuth2 token per
user key; represented as an association list from user id to token. -/
abbrev Store := List (UUID × Token)

/-- Modelled from the spec: `GetSession(userID)` returns the stored token
or a "not found" signal. -/
def Store.getSession : Store → UUID → Option Token
  | [], _ => none
  | (k, t) :: rest, u => if k = u then some t else Store.getSession rest u

/-- Modelled from the spec: `CreateSession(userID, token)` stores a new
token keyed by userID, silently overwriting an existing one (idempotent
upsert). -/
def Store.createSession : Store → UUID → Token → Store
  | [], u, t => [(u, t)]
  | (k, t') :: rest, u, t =>
    if k = u then (u, t) :: rest else (k, t') :: Store.createSession rest u t

/-- Modelled from the spec: `UpdateSession(userID, newToken)` replaces the
stored token and fails with `NotFoundError` when no session exists for
that user. -/
def Store.updateSession (st : Store) (u : UUID) (t : Token) : Except SdkError Store :=
  match st.getSession u with
  | some _ => .ok (st.createSession u t)
  | none => .error .notFoundError

/-- Decimal digit character for a value below ten (values ten and above
never arise from `n % 10`). -/
def digitChar : Nat → Char
  | 0 => '0'
  | 1 => '1'
  | 2 => '2'
  | 3 => '3'
  | 4 => '4'
  | 5 => '5'
  | 6 => '6'
  | 7 => '7'
  | 8 => '8'
  | _ => '9'

/-- Fuel-driven most-significant-digit-first decimal rendering. -/
def natDigitsAux : Nat → Nat → List Char
  | 0, _ => []
  | fuel + 1, n =>
    if n < 10 then [digitChar n]
    else natDigitsAux fuel (n / 10) ++ [digitChar (n % 10)]

/-- Decimal rendering of a natural number as a character list. -/
def natDigits (n : Nat) : List Char := natDigitsAux (n + 1) n

/-- Zero-padding to two characters (month, day, hour, minute, second). -/
def pad2 (n : Nat) : List Char := if n < 10 then '0' :: natDigits n else natDigits n

/-- Zero-padding to four characters (year). -/
def pad4 (n : Nat) : List Char :=
  List.replicate (4 - (natDigits n).length) '0' ++ natDigits n

/-- Gregorian civil date (year, month, day) from a count of days since the
unix epoch 1970-01-01, for non-negative day counts. -/
def civilFromDays (days : Nat) : Nat × Nat × Nat :=
  let z := days + 719468
  let era := z / 146097
  let doe := z % 146097
  let yoe := (doe - doe / 1460 + doe / 36524 - doe / 146096) / 365
  let y := yoe + era * 400
  let doy := doe - (365 * yoe + yoe / 4 - yoe / 100)
  let mp := (5 * doy + 2) / 153
  let d := doy - (153 * mp + 2) / 5 + 1
  let m := if mp < 10 then mp + 3 else mp - 9
  (if m ≤ 2 then y + 1 else y, m, d)

/-- RFC3339 UTC rendering, `YYYY-MM-DDTHH:MM:SSZ`, of a count of seconds
since the unix epoch. -/
def formatRFC3339 (secs : Nat) : String :=
  let days := secs / 86400
  let sod := secs % 86400
  let ymd := civilFromDays days
  ⟨pad4 ymd.1 ++ (('-' :: pad2 ymd.2.1) ++ (('-' :: pad2 ymd.2.2) ++ (('T' :: pad2 (sod / 3600)) ++
    ((':' :: pad2 (sod % 3600 / 60)) ++ ((':' :: pad2 (sod % 60)) ++ ['Z'])))))⟩

/-- Recognizer for the legacy .Net JSON date encoding: the string opens
with the six characters `/Date(`. -/
def isLegacyDate : List Char → Bool
  | c0 :: c1 :: c2 :: c3 :: c4 :: c5 :: _ =>
    c0 = '/' && (c1 = 'D' && (c2 = 'a' && (c3 = 't' && (c4 = 'e' && c5 = '('))))
  | _ => false

/-- Decimal value of a digit-character list. -/
def digitsToNat (cs : List Char) : Nat :=
  cs.foldl (fun acc c => acc * 10 + (c.toNat - 48)) 0

/-- Modelled from the spec: `helpers.DotNetJSONTimeToRFC3339` (not under
src/) normalizes the remote platform's legacy .Net JSON date encoding
`/Date(<milliseconds since epoch><offset>)/` into an RFC3339 timestamp;
the milliseconds value is UTC-based, so the trailing display offset
(observed as `+0000`) does not shift the instant. A string that is not in
the legacy encoding (in particular one already in RFC3339 form) is
returned unchanged, and a malformed legacy string is an explicit error.
All call sites in the source pass `isUTC = true`; local-zone rendering is
not modelled, so the output is always the UTC form. -/
def DotNetJSONTimeToRFC3339 (jsonTime : String) (isUTC : Bool) : Except SdkError String :=
  if isLegacyDate jsonTime.data then
    let digits := (jsonTime.data.drop 6).takeWhile Char.isDigit
    if digits = [] then .error (.fetchError ("invalid legacy date: " ++ jsonTime))
    else .ok (formatRFC3339 (digitsToNat digits / 1000))
  else
    .ok jsonTime

/-- Base resource URL of the contacts module (contact.go). -/
def contactsURL : String := "https://api.xero.com/api.xro/2.0/Contacts"

/-- Base resource URL of the accounts module (account.go). -/
def accountsURL : String := "https://api.xero.com/api.xro/2.0/Accounts"

/-- Contact record (contact.go). Nested pointer-to-collection fields
(contact persons, addresses, phones, tracking categories, contact groups,
balances, batch payments) and the floating-point discount field are
presentation-only data that no operation of the module inspects; they are
elided from the embedding, which is value-opaque except for `ContactID`
and `UpdatedDateUTC`. -/
structure Contact where
  ContactID : String := ""
  ContactNumber : String := ""
  AccountNumber : String := ""
  ContactStatus : String := ""
  Name : String := ""
  FirstName : String := ""
  LastName : String := ""
  EmailAddress : String := ""
  SkypeUserName : String := ""
  BankAccountDetails : String := ""
  TaxNumber : String := ""
  DefaultCurrency : String := ""
  UpdatedDateUTC : String := ""
  Website : String := ""
  IsSupplier : Bool := false
  IsCustomer : Bool := false
  HasAttachments : Bool := false
deriving Repr, DecidableEq

/-- Collection of contacts (contact.go). The Go field is named
`Contacts` like its type; Lean cannot shadow a structure name with its
own field, so the field is rendered in lowercase. -/
structure Contacts where
  contacts : List Contact
deriving Repr, DecidableEq

/-- Account record (account.go); the `Type` field is rendered as `Type'`
because `Type` is reserved in Lean. -/
structure Account where
  Code : String := ""
  Name : String := ""
  Type' : String := ""
  BankAccountNumber : String := ""
  Status : String := ""
  Description : String := ""
  BankAccountType : String := ""
  CurrencyCode : String := ""
  TaxType : String := ""
  EnablePaymentsToAccount : Bool := false
  ShowInExpenseClaims : Bool := false
  AccountID : String := ""
  Class : String := ""
  SystemAccount : String := ""
  ReportingCode : String := ""
  ReportingCodeName : String := ""
  HasAttachments : Bool := false
  UpdatedDateUTC : String := ""
deriving Repr, DecidableEq

/-- Collection of accounts (account.go). The Go field is named
`Accounts` like its type; rendered in lowercase as for `Contacts`. -/
structure Accounts where
  accounts : List Account
deriving Repr, DecidableEq

/-- Modelled from the spec: the `helpers` HTTP gateway
(`helpers.Find/Create/Update/Remove`, not under src/) returns raw bytes
which the contacts module decodes into its own shape with
`json.Unmarshal`. Bytes and JSON are not embedded; the gateway plus
decode step is modelled as oracles keyed by resource URL, additional
headers and query parameters, yielding the decoded (not yet
date-normalized) collection or a failure. -/
structure ContactsClient where
  find : String → List (String × String) → List (String × String) → Except SdkError Contacts
  create : String → Contacts → Except SdkError Contacts
  update : String → Contacts → Except SdkError Contacts

/-- Modelled from the spec: the `helpers` gateway for the accounts module,
as for `ContactsClient`. -/
structure AccountsClient where
  find : String → List (String × String) → List (String × String) → Except SdkError Accounts
  create : String → Accounts → Except SdkError Accounts
  update : String → Accounts → Except SdkError Accounts
  remove : String → Except SdkError Accounts

/-- Date conversion over a contact list (the loop body of
`Contacts.convertDates`, contact.go). The Go loop walks the slice from
the last index down to index 0 and stops at the first failure, so later
elements are converted before earlier ones; the recursion below converts
the tail before the head to keep that error order. -/
def convertContactList : List Contact → Except SdkError (List Contact)
  | [] => .ok []
  | c :: rest =>
    match convertContactList rest with
    | .error e => .error e
    | .ok rest' =>
      match DotNetJSONTimeToRFC3339 c.UpdatedDateUTC true with
      | .error e => .error e
      | .ok d => .ok ({ c with UpdatedDateUTC := d } :: rest')

/-- Conversion of every `UpdatedDateUTC` in a contacts collection from the
.Net JSON date format to RFC3339 (contact.go `Contacts.convertDates`). -/
def Contacts.convertDates (c : Contacts) : Except SdkError Contacts :=
  match convertContactList c.contacts with
  | .error e => .error e
  | .ok l => .ok ⟨l⟩

/-- Decode step shared by the contact operations (contact.go
`unmarshalContact`): the JSON decode is performed by the client oracle, so
what remains is the date conversion applied to the decoded collection. -/
def unmarshalContact (contactResponse : Contacts) : Except SdkError Contacts :=
  contactResponse.convertDates

/-- All contacts linked with the given tenant (contact.go
`FindContacts`). -/
def FindContacts (cl : ContactsClient) : Except SdkError Contacts :=
  match cl.find contactsURL [] [] with
  | .error e => .error e
  | .ok raw => unmarshalContact raw

/-- Single-contact lookup by id (contact.go `FindContact`): a successful
response whose collection is non-empty yields its first element, and an
empty collection yields `none` with no error. -/
def FindContact (cl : ContactsClient) (contactID : UUID) : Except SdkError (Option Contact) :=
  match cl.find (contactsURL ++ "/" ++ contactID) [] [] with
  | .error e => .error e
  | .ok raw =>
    match unmarshalContact raw with
    | .error e => .error e
    | .ok c =>
      .ok (if h : 0 < c.contacts.length then some (c.contacts.get ⟨0, h⟩) else none)

/-- Contact creation (contact.go `Contacts.Create`). -/
def Contacts.Create (c : Contacts) (cl : ContactsClient) : Except SdkError Contacts :=
  match cl.create contactsURL c with
  | .error e => .error e
  | .ok raw => unmarshalContact raw

/-- Contact update (contact.go `Contact.Update`): the receiver is wrapped
as a one-element collection and sent to the base URL extended with the
receiver's id. -/
def Contact.Update (c : Contact) (cl : ContactsClient) : Except SdkError Contacts :=
  let cn : Contacts := ⟨[c]⟩
  match cl.update (contactsURL ++ "/" ++ c.ContactID) cn with
  | .error e => .error e
  | .ok raw => unmarshalContact raw

/-- Date conversion over an account list (the loop body of
`Accounts.convertDates`, account.go), tail first as for contacts. -/
def convertAccountList : List Account → Except SdkError (List Account)
  | [] => .ok []
  | a :: rest =>
    match convertAccountList rest with
    | .error e => .error e
    | .ok rest' =>
      match DotNetJSONTimeToRFC3339 a.UpdatedDateUTC true with
      | .error e => .error e
      | .ok d => .ok ({ a with UpdatedDateUTC := d } :: rest')

/-- Conversion of every `UpdatedDateUTC` in an accounts collection
(account.go `Accounts.convertDates`). -/
def Accounts.convertDates (a : Accounts) : Except SdkError Accounts :=
  match convertAccountList a.accounts with
  | .error e => .error e
  | .ok l => .ok ⟨l⟩

/-- Decode step shared by the account operations (account.go
`unmarshalAccount`). -/
def unmarshalAccount (accountResponse : Accounts) : Except SdkError Accounts :=
  accountResponse.convertDates

/-- All accounts modified after a given instant (account.go
`FindAccountsModifiedSince`): the instant, modelled as unix seconds, is
sent as an `If-Modified-Since` header in RFC3339 form. -/
def FindAccountsModifiedSince (cl : AccountsClient) (modifiedSince : Nat)
    (queryParameters : List (String × String)) : Except SdkError Accounts :=
  let additionalHeaders := [("If-Modified-Since", formatRFC3339 modifiedSince)]
  match cl.find accountsURL additionalHeaders queryParameters with
  | .error e => .error e
  | .ok raw => unmarshalAccount raw

/-- All accounts (account.go `FindAccounts`). -/
def FindAccounts (cl : AccountsClient) (queryParameters : List (String × String)) :
    Except SdkError Accounts :=
  match cl.find accountsURL [] queryParameters with
  | .error e => .error e
  | .ok raw => unmarshalAccount raw

/-- Single-account lookup by id (account.go `FindAccount`), returning the
first element of a non-empty collection and `none` without error on an
empty one. -/
def FindAccount (cl : AccountsClient) (accountID : UUID) : Except SdkError (Option Account) :=
  match cl.find (accountsURL ++ "/" ++ accountID) [] [] with
  | .error e => .error e
  | .ok raw =>
    match unmarshalAccount raw with
    | .error e => .error e
    | .ok a =>
      .ok (if h : 0 < a.accounts.length then some (a.accounts.get ⟨0, h⟩) else none)

/-- Account removal (account.go `RemoveAccount`). -/
def RemoveAccount (cl : AccountsClient) (accountID : UUID) : Except SdkError Accounts :=
  match cl.remove (accountsURL ++ "/" ++ accountID) with
  | .error e => .error e
  | .ok raw => unmarshalAccount raw

/-- Account creation (account.go `Accounts.Create`). -/
def Accounts.Create (a : Accounts) (cl : AccountsClient) : Except SdkError Accounts :=
  match cl.create accountsURL a with
  | .error e => .error e
  | .ok raw => unmarshalAccount raw

/-- Account update (account.go `Account.Update`): the receiver is wrapped
as a one-element collection and sent to the base URL extended with the
receiver's id. -/
def Account.Update (a : Account) (cl : AccountsClient) : Except SdkError Accounts :=
  let acc : Accounts := ⟨[a]⟩
  match cl.update (accountsURL ++ "/" ++ a.AccountID) acc with
  | .error e => .error e
  | .ok raw => unmarshalAccount raw

/-- Modelled from the spec: the invoice resource shape is referenced by
the invoices handler but its module is not under src/; only its
collection structure matters here. -/
structure Invoice where
  InvoiceID : String := ""
deriving Repr, DecidableEq

/-- Modelled from the spec: collection of invoices; the Go field is named
`Invoices` like its type and is rendered in lowercase as for
`Contacts`. -/
structure Invoices where
  invoices : List Invoice
deriving Repr, DecidableEq

/-- Modelled from the spec: organisation resource shape referenced by the
organisations handler; its module is not under src/. -/
structure Organisation where
  Name : String := ""
deriving Repr, DecidableEq

/-- Modelled from the spec: collection of organisations; the Go field is
named like its type and is rendered in lowercase as for `Contacts`. -/
structure Organisations where
  organisations : List Organisation
deriving Repr, DecidableEq

/-- Modelled from the spec: bank transaction resource shape; its module
is not under src/. -/
structure BankTransaction where
  BankTransactionID : String := ""
deriving Repr, DecidableEq

/-- Modelled from the spec: collection of bank transactions; the Go field
is named like its type and is rendered in lowercase. -/
structure BankTransactions where
  bankTransactions : List BankTransaction
deriving Repr, DecidableEq

/-- Modelled from the spec: bank transfer resource shape; its module is
not under src/. -/
structure BankTransfer where
  BankTransferID : String := ""
deriving Repr, DecidableEq

/-- Modelled from the spec: collection of bank transfers; the Go field is
named like its type and is rendered in lowercase. -/
structure BankTransfers where
  bankTransfers : List BankTransfer
deriving Repr, DecidableEq

/-- Modelled from the spec: branding theme resource shape; its module is
not under src/. `FindBrandingThemes` yields a bare slice (the handler
appends `themes...` directly), so no collection wrapper exists. -/
structure BrandingTheme where
  BrandingThemeID : String := ""
deriving Repr, DecidableEq

/-- Modelled from the spec: contact group resource shape; its module is
not under src/. -/
structure ContactGroup where
  ContactGroupID : String := ""
deriving Repr, DecidableEq

/-- Modelled from the spec: collection of contact groups; the Go field is
named like its type and is rendered in lowercase. -/
structure ContactGroups where
  contactGroups : List ContactGroup
deriving Repr, DecidableEq

/-- Modelled from the spec: credit note resource shape; its module is not
under src/. -/
structure CreditNote where
  CreditNoteID : String := ""
deriving Repr, DecidableEq

/-- Modelled from the spec: collection of credit notes; the Go field is
named like its type and is rendered in lowercase. -/
structure CreditNotes where
  creditNotes : List CreditNote
deriving Repr, DecidableEq

/-- Modelled from the spec: currency resource shape; its module is not
under src/. -/
structure Currency where
  Code : String := ""
deriving Repr, DecidableEq

/-- Modelled from the spec: collection of currencies; the Go field is
named like its type and is rendered in lowercase. -/
structure Currencies where
  currencies : List Currency
deriving Repr, DecidableEq

/-- Modelled from the spec: employee resource shape; its module is not
under src/. -/
structure Employee where
  EmployeeID : String := ""
deriving Repr, DecidableEq

/-- Modelled from the spec: collection of employees. The Go field is
spelled `Employess` (sic, see the employees handler in main.go), which
differs from the type name, so it is kept verbatim. -/
structure Employees where
  Employess : List Employee
deriving Repr, DecidableEq

/-- Modelled from the spec: invoice reminder resource shape; its module
is not under src/. -/
structure InvoiceReminder where
  Enabled : Bool := false
deriving Repr, DecidableEq

/-- Modelled from the spec: collection of invoice reminders; the Go field
is named like its type and is rendered in lowercase. -/
structure InvoiceReminders where
  invoiceReminders : List InvoiceReminder
deriving Repr, DecidableEq

/-- Modelled from the spec: item resource shape (the invoice items
listing); its module is not under src/. -/
structure Item where
  ItemID : String := ""
deriving Repr, DecidableEq

/-- Modelled from the spec: collection of items; the Go field is named
like its type and is rendered in lowercase. -/
structure Items where
  items : List Item
deriving Repr, DecidableEq

/-- Modelled from the spec: the remote platform and the SDK layers not
under src/, as the oracles the example application's handlers consume:
the OAuth2 provider's code-for-token and refresh exchanges, tenant
resolution, and the per-tenant resource fetches (`accounting.FindContacts`
/ `FindInvoices` / `FindAccounts` composed with the authenticated
transport). Each fetch oracle receives the session token and the tenant
id the transport is bound to. -/
structure Env where
  tokenFromCode : String → Except SdkError Token
  refreshToken : Token → Except SdkError Token
  getTenants : Token → Except SdkError (List Tenant)
  findContacts : Token → UUID → Except SdkError Contacts
  findInvoices : Token → UUID → Except SdkError Invoices
  findAccounts : Token → UUID → Except SdkError Accounts
  findOrganisations : Token → UUID → Except SdkError Organisations
  findBankTransactions : Token → UUID → Except SdkError BankTransactions
  findBankTransfers : Token → UUID → Except SdkError BankTransfers
  findBrandingThemes : Token → UUID → Except SdkError (List BrandingTheme)
  findContactGroups : Token → UUID → Except SdkError ContactGroups
  findCreditNotes : Token → UUID → Except SdkError CreditNotes
  findCurrencies : Token → UUID → Except SdkError Currencies
  findEmployees : Token → UUID → Except SdkError Employees
  findInvoiceReminders : Token → UUID → Except SdkError InvoiceReminders
  findItems : Token → UUID → Except SdkError Items
  createContacts : Token → UUID → Contacts → Except SdkError Contacts

/-- Modelled from the spec: `auth.Session` binds a (possibly absent)
token to the local user and a tenant; the repository handle carried by
the Go struct is passed around explicitly as a `Store` value in this
embedding. -/
structure Session where
  Token : Option Token
  UserID : UUID
  TenantID : UUID

/-- Modelled from the spec: `Provider.GetTokenFromCode` performs the
authorization-code-for-token exchange against the remote token
endpoint. -/
def Provider.GetTokenFromCode (env : Env) (code : String) : Except SdkError Token :=
  env.tokenFromCode code

/-- Modelled from the spec: `Provider.Refresh` performs a refresh-token
exchange; it fails with an `AuthError` when there is no token at all or
the token has no refresh token, and otherwise defers to the remote
endpoint. -/
def Provider.Refresh (env : Env) : Option Token → Except SdkError Token
  | none => .error (.authError "no session token")
  | some t =>
    if t.RefreshToken = "" then .error (.authError "token has no refresh token")
    else env.refreshToken t

/-- Observable steps of one round trip through the authenticated
transport: a refresh exchange, a persist of the refreshed token, and the
send of the underlying request with the attached bearer credential. -/
inductive TransportEvent where
  | refreshed
  | persisted
  | sent (bearer : String)
deriving Repr, DecidableEq, BEq

/-- Result of one round trip through the authenticated transport: the
ordered event trace, the token the request was sent with (or the
failure), and the resulting session store. -/
structure RoundTripResult where
  events : List TransportEvent
  outcome : Except SdkError Token
  store : Store
deriving Repr

/-- Modelled from the spec: the authenticated transport produced by
`Provider.Client(session)` (spec section 4.2): before each request it
checks token expiry; if the token is expired it invokes `Refresh` and
persists the new token via the bound repository's `UpdateSession` before
proceeding, and it attaches the current access token as the bearer
credential of the outgoing request. -/
def Client.roundTrip (env : Env) (now : Int) (sess : Session) (st : Store) : RoundTripResult :=
  match sess.Token with
  | none => ⟨[], .error (.authError "no session token"), st⟩
  | some t =>
    if t.Expiry ≤ now then
      match Provider.Refresh env (some t) with
      | .error e => ⟨[], .error e, st⟩
      | .ok t' =>
        match st.updateSession sess.UserID t' with
        | .error e => ⟨[.refreshed], .error e, st⟩
        | .ok st' => ⟨[.refreshed, .persisted, .sent t'.AccessToken], .ok t', st'⟩
    else ⟨[.sent t.AccessToken], .ok t, st⟩

/-- Modelled from the spec: `connection.GetTenants` issued through the
transport built from the session's token (`c.Client(&auth.Session{...})`
in main.go); with no stored token the transport cannot attach a bearer
credential and the call fails with an `AuthError` before reaching the
platform. -/
def callGetTenants (env : Env) : Option Token → Except SdkError (List Tenant)
  | none => .error (.authError "no session token")
  | some t => env.getTenants t

/-- Modelled from the spec: `accounting.FindContacts` through the
transport bound to the given tenant, as `callGetTenants`. -/
def callFindContacts (env : Env) (se : Option Token) (tenantID : UUID) :
    Except SdkError Contacts :=
  match se with
  | none => .error (.authError "no session token")
  | some t => env.findContacts t tenantID

/-- Modelled from the spec: `accounting.FindInvoices` through the
transport bound to the given tenant. -/
def callFindInvoices (env : Env) (se : Option Token) (tenantID : UUID) :
    Except SdkError Invoices :=
  match se with
  | none => .error (.authError "no session token")
  | some t => env.findInvoices t tenantID

/-- Modelled from the spec: `accounting.FindAccounts` through the
transport bound to the given tenant. -/
def callFindAccounts (env : Env) (se : Option Token) (tenantID : UUID) :
    Except SdkError Accounts :=
  match se with
  | none => .error (.authError "no session token")
  | some t => env.findAccounts t tenantID

/-- Modelled from the spec: `accounting.FindOrganisations` through the
transport bound to the given tenant, as `callFindContacts`. -/
def callFindOrganisations (env : Env) (se : Option Token) (tenantID : UUID) :
    Except SdkError Organisations :=
  match se with
  | none => .error (.authError "no session token")
  | some t => env.findOrganisations t tenantID

/-- Modelled from the spec: `accounting.FindBankTransactions` through the
transport bound to the given tenant. -/
def callFindBankTransactions (env : Env) (se : Option Token) (tenantID : UUID) :
    Except SdkError BankTransactions :=
  match se with
  | none => .error (.authError "no session token")
  | some t => env.findBankTransactions t tenantID

/-- Modelled from the spec: `accounting.FindBankTransfers` through the
transport bound to the given tenant. -/
def callFindBankTransfers (env : Env) (se : Option Token) (tenantID : UUID) :
    Except SdkError BankTransfers :=
  match se with
  | none => .error (.authError "no session token")
  | some t => env.findBankTransfers t tenantID

/-- Modelled from the spec: `accounting.FindBrandingThemes` through the
transport bound to the given tenant; the result is a bare slice. -/
def callFindBrandingThemes (env : Env) (se : Option Token) (tenantID : UUID) :
    Except SdkError (List BrandingTheme) :=
  match se with
  | none => .error (.authError "no session token")
  | some t => env.findBrandingThemes t tenantID

/-- Modelled from the spec: `accounting.FindContactGroups` through the
transport bound to the given tenant. -/
def callFindContactGroups (env : Env) (se : Option Token) (tenantID : UUID) :
    Except SdkError ContactGroups :=
  match se with
  | none => .error (.authError "no session token")
  | some t => env.findContactGroups t tenantID

/-- Modelled from the spec: `accounting.FindCreditNotes` through the
transport bound to the given tenant. -/
def callFindCreditNotes (env : Env) (se : Option Token) (tenantID : UUID) :
    Except SdkError CreditNotes :=
  match se with
  | none => .error (.authError "no session token")
  | some t => env.findCreditNotes t tenantID

/-- Modelled from the spec: `accounting.FindCurrencies` through the
transport bound to the given tenant. -/
def callFindCurrencies (env : Env) (se : Option Token) (tenantID : UUID) :
    Except SdkError Currencies :=
  match se with
  | none => .error (.authError "no session token")
  | some t => env.findCurrencies t tenantID

/-- Modelled from the spec: `accounting.FindEmployees` through the
transport bound to the given tenant. -/
def callFindEmployees (env : Env) (se : Option Token) (tenantID : UUID) :
    Except SdkError Employees :=
  match se with
  | none => .error (.authError "no session token")
  | some t => env.findEmployees t tenantID

/-- Modelled from the spec: `accounting.FindInvoiceReminders` through the
transport bound to the given tenant. -/
def callFindInvoiceReminders (env : Env) (se : Option Token) (tenantID : UUID) :
    Except SdkError InvoiceReminders :=
  match se with
  | none => .error (.authError "no session token")
  | some t => env.findInvoiceReminders t tenantID

/-- Modelled from the spec: `accounting.FindItems` through the transport
bound to the given tenant. -/
def callFindItems (env : Env) (se : Option Token) (tenantID : UUID) :
    Except SdkError Items :=
  match se with
  | none => .error (.authError "no session token")
  | some t => env.findItems t tenantID

/-- Modelled from the spec: `accounting.Contacts.Create` through the
transport bound to the given tenant, as used by the contact-creation
handler. -/
def callCreateContacts (env : Env) (se : Option Token) (tenantID : UUID)
    (c : Contacts) : Except SdkError Contacts :=
  match se with
  | none => .error (.authError "no session token")
  | some t => env.createContacts t tenantID c

/-- Outcome of one handled HTTP request: a rendered template with its
data, a JSON body, a redirect, or an abrupt abort of the request via
`log.Panic`. -/
inductive HOutcome (α : Type) where
  | render (template : String) (data : α)
  | json (data : α)
  | redirect (location : String)
  | panicked (err : SdkError)
deriving Repr

/-- Home/status handler (main.go `HomeHandler`): executes the connected
template with the stored session token when one exists, the index
template with the absent token otherwise. -/
def HomeHandler (st : Store) : HOutcome (Option Token) :=
  match st.getSession nilUUID with
  | some se => .render "connected" (some se)
  | none => .render "index" none

/-- Auth callback handler (main.go `XeroAuthCallbackHandler`): exchanges
the callback code for a token, panics on failure, otherwise persists the
session under the nil user key and renders the connected template with
the token. -/
def XeroAuthCallbackHandler (env : Env) (code : String) (st : Store) :
    HOutcome Token × Store :=
  match Provider.GetTokenFromCode env code with
  | .error e => (.panicked e, st)
  | .ok token => (.render "connected" token, st.createSession nilUUID token)

/-- Connections handler (main.go `XeroConnectionsHandler`): resolves the
granted tenants through the session's transport and writes them as JSON,
panicking on any error. -/
def XeroConnectionsHandler (env : Env) (st : Store) : HOutcome (List Tenant) :=
  let se := st.getSession nilUUID
  match callGetTenants env se with
  | .error e => .panicked e
  | .ok tenants => .json tenants

/-- Refresh handler (main.go `XeroRefreshTokenHandler`): refreshes the
current token, panics on failure, persists the new token under the nil
user key (the Go code discards `UpdateSession`'s error, so a failed
persist leaves the store unchanged) and redirects to `/`. -/
def XeroRefreshTokenHandler (env : Env) (st : Store) : HOutcome Unit × Store :=
  let se := st.getSession nilUUID
  match Provider.Refresh env se with
  | .error e => (.panicked e, st)
  | .ok newToken =>
    match st.updateSession nilUUID newToken with
    | .ok st' => (.redirect "/", st')
    | .error _ => (.redirect "/", st)

/-- The per-tenant fetch-and-append loop shared verbatim by every
resource-listing handler in main.go: walk the tenant list in order, fetch
the resource through the transport bound to each tenant, abort at the
first error (`log.Panic` in the source), and otherwise append the
projected element list to the accumulated results. -/
def fetchLoop {β α : Type} (fetch : UUID → Except SdkError β) (proj : β → List α) :
    List Tenant → Except SdkError (List α)
  | [] => .ok []
  | tenant :: rest =>
    match fetch tenant.TenantID with
    | .error e => .error e
    | .ok b =>
      match fetchLoop fetch proj rest with
      | .error e => .error e
      | .ok ys => .ok (proj b ++ ys)

/-- Contacts listing handler (main.go `XeroContactsHandler`): load the
session, resolve all tenants, fetch contacts from every tenant and
concatenate, render the contacts template; panic on any error. -/
def XeroContactsHandler (env : Env) (st : Store) : HOutcome (List Contact) :=
  let se := st.getSession nilUUID
  match callGetTenants env se with
  | .error e => .panicked e
  | .ok tenants =>
    match fetchLoop (callFindContacts env se) Contacts.contacts tenants with
    | .error e => .panicked e
    | .ok contacts => .render "contacts" contacts

/-- Invoices listing handler (main.go `XeroInvoicesHandler`), same loop as
the contacts handler with the invoices fetch and template. -/
def XeroInvoicesHandler (env : Env) (st : Store) : HOutcome (List Invoice) :=
  let se := st.getSession nilUUID
  match callGetTenants env se with
  | .error e => .panicked e
  | .ok tenants =>
    match fetchLoop (callFindInvoices env se) Invoices.invoices tenants with
    | .error e => .panicked e
    | .ok invoices => .render "invoices" invoices

/-- Accounts listing handler (main.go `XeroAccountsHandler`), same loop as
the contacts handler with the accounts fetch and template. -/
def XeroAccountsHandler (env : Env) (st : Store) : HOutcome (List Account) :=
  let se := st.getSession nilUUID
  match callGetTenants env se with
  | .error e => .panicked e
  | .ok tenants =>
    match fetchLoop (callFindAccounts env se) Accounts.accounts tenants with
    | .error e => .panicked e
    | .ok accounts => .render "accounts" accounts

/-- Contact creation handler (main.go `XeroContactsCreateHandler`):
builds a dummy contact named after a freshly generated uuid (the random
uuid is a parameter of the embedding), resolves the tenants, creates the
contact against the first tenant and redirects home; any remote error
panics. The Go code indexes `tenants[0]` assuming at least one tenant, so
an empty tenant list is an uncontrolled index panic, modelled as a panic
outcome. -/
def XeroContactsCreateHandler (env : Env) (contactID : UUID) (st : Store) :
    HOutcome Unit :=
  let se := st.getSession nilUUID
  let contacts : Contacts :=
    ⟨[{ Name := "Test " ++ contactID, FirstName := "Test FirstName",
        LastName := "Test LastName", EmailAddress := "Test Email " ++ contactID }]⟩
  match callGetTenants env se with
  | .error e => .panicked e
  | .ok tenants =>
    match tenants with
    | [] => .panicked (.fetchError "index out of range: no tenants")
    | t0 :: _ =>
      match callCreateContacts env se t0.TenantID contacts with
      | .error e => .panicked e
      | .ok _ => .redirect "/"

/-- Organisations listing handler (main.go `XeroOrganisationsHandler`),
same loop as the contacts handler. -/
def XeroOrganisationsHandler (env : Env) (st : Store) : HOutcome (List Organisation) :=
  let se := st.getSession nilUUID
  match callGetTenants env se with
  | .error e => .panicked e
  | .ok tenants =>
    match fetchLoop (callFindOrganisations env se) Organisations.organisations tenants with
    | .error e => .panicked e
    | .ok organisations => .render "organisations" organisations

/-- Bank transactions listing handler (main.go
`XeroBankTransactionsHandler`), same loop. -/
def XeroBankTransactionsHandler (env : Env) (st : Store) :
    HOutcome (List BankTransaction) :=
  let se := st.getSession nilUUID
  match callGetTenants env se with
  | .error e => .panicked e
  | .ok tenants =>
    match fetchLoop (callFindBankTransactions env se)
        BankTransactions.bankTransactions tenants with
    | .error e => .panicked e
    | .ok bankTransactions => .render "bankTransactions" bankTransactions

/-- Bank transfers listing handler (main.go `XeroBankTransfersHandler`),
same loop. -/
def XeroBankTransfersHandler (env : Env) (st : Store) : HOutcome (List BankTransfer) :=
  let se := st.getSession nilUUID
  match callGetTenants env se with
  | .error e => .panicked e
  | .ok tenants =>
    match fetchLoop (callFindBankTransfers env se) BankTransfers.bankTransfers tenants with
    | .error e => .panicked e
    | .ok bankTransfers => .render "bankTransfers" bankTransfers

/-- Branding themes listing handler (main.go `XeroBrandingThemeHandler`),
same loop; the fetch yields a bare slice, appended as is. -/
def XeroBrandingThemeHandler (env : Env) (st : Store) : HOutcome (List BrandingTheme) :=
  let se := st.getSession nilUUID
  match callGetTenants env se with
  | .error e => .panicked e
  | .ok tenants =>
    match fetchLoop (callFindBrandingThemes env se) (fun themes => themes) tenants with
    | .error e => .panicked e
    | .ok brandingThemes => .render "brandingThemes" brandingThemes

/-- Contact groups listing handler (main.go `XeroContactGroupsHandler`),
same loop. -/
def XeroContactGroupsHandler (env : Env) (st : Store) : HOutcome (List ContactGroup) :=
  let se := st.getSession nilUUID
  match callGetTenants env se with
  | .error e => .panicked e
  | .ok tenants =>
    match fetchLoop (callFindContactGroups env se) ContactGroups.contactGroups tenants with
    | .error e => .panicked e
    | .ok contactGroups => .render "contactGroups" contactGroups

/-- Credit notes listing handler (main.go `XeroCreditNotesHandler`), same
loop. -/
def XeroCreditNotesHandler (env : Env) (st : Store) : HOutcome (List CreditNote) :=
  let se := st.getSession nilUUID
  match callGetTenants env se with
  | .error e => .panicked e
  | .ok tenants =>
    match fetchLoop (callFindCreditNotes env se) CreditNotes.creditNotes tenants with
    | .error e => .panicked e
    | .ok creditNotes => .render "creditNotes" creditNotes

/-- Currencies listing handler (main.go `XeroCurrencyHandler`), same
loop. -/
def XeroCurrencyHandler (env : Env) (st : Store) : HOutcome (List Currency) :=
  let se := st.getSession nilUUID
  match callGetTenants env se with
  | .error e => .panicked e
  | .ok tenants =>
    match fetchLoop (callFindCurrencies env se) Currencies.currencies tenants with
    | .error e => .panicked e
    | .ok currencies => .render "currencies" currencies

/-- Employees listing handler (main.go `XeroEmployeesHandler`), same
loop; note the `Employess` field spelling from the source. -/
def XeroEmployeesHandler (env : Env) (st : Store) : HOutcome (List Employee) :=
  let se := st.getSession nilUUID
  match callGetTenants env se with
  | .error e => .panicked e
  | .ok tenants =>
    match fetchLoop (callFindEmployees env se) Employees.Employess tenants with
    | .error e => .panicked e
    | .ok employees => .render "employees" employees

/-- Invoice reminders listing handler (main.go
`XeroInvoiceRemindersHandler`), same loop. -/
def XeroInvoiceRemindersHandler (env : Env) (st : Store) :
    HOutcome (List InvoiceReminder) :=
  let se := st.getSession nilUUID
  match callGetTenants env se with
  | .error e => .panicked e
  | .ok tenants =>
    match fetchLoop (callFindInvoiceReminders env se)
        InvoiceReminders.invoiceReminders tenants with
    | .error e => .panicked e
    | .ok reminders => .render "invoiceReminders" reminders

/-- Invoice items listing handler (main.go `XeroInvoiceItemsHandler`),
same loop. -/
def XeroInvoiceItemsHandler (env : Env) (st : Store) : HOutcome (List Item) :=
  let se := st.getSession nilUUID
  match callGetTenants env se with
  | .error e => .panicked e
  | .ok tenants =>
    match fetchLoop (callFindItems env se) Items.items tenants with
    | .error e => .panicked e
    | .ok items => .render "invoiceItems" items

/-- The uniform resource-listing shape of spec section 4.5: load the
current session, resolve all tenants through the session's transport,
fetch the target resource per tenant, concatenate, render. Each concrete
handler is an instance of this shape. -/
def listHandler {β α : Type} (getT : Option Token → Except SdkError (List Tenant))
    (fetch : Option Token → UUID → Except SdkError β) (proj : β → List α)
    (template : String) (st : Store) : HOutcome (List α) :=
  let se := st.getSession nilUUID
  match getT se with
  | .error e => .panicked e
  | .ok tenants =>
    match fetchLoop (fetch se) proj tenants with
    | .error e => .panicked e
    | .ok xs => .render template xs

/-! Concrete fixtures used to instantiate hypotheses of the theorems
below on executable inputs. -/

/-- Fixture: a stored token whose expiry (unix second 100) is in the
past relative to the instants used below. -/
def tokenA : Token :=
  { AccessToken := "access-a", TokenType := "Bearer",
    RefreshToken := "refresh-a", Expiry := 100 }

/-- Fixture: the token produced by a successful refresh exchange. -/
def tokenB : Token :=
  { AccessToken := "access-b", TokenType := "Bearer",
    RefreshToken := "refresh-b", Expiry := 4000 }

/-- Fixture tenant. -/
def tenant1 : Tenant := ⟨"tenant-1"⟩

/-- Fixture tenant. -/
def tenant2 : Tenant := ⟨"tenant-2"⟩

/-- Fixture contact carrying a legacy date. -/
def contactX : Contact :=
  { ContactID := "c-1", Name := "Ada", UpdatedDateUTC := "/Date(0+0000)/" }

/-- Fixture contact. -/
def contactY : Contact :=
  { ContactID := "c-2", Name := "Grace", UpdatedDateUTC := "/Date(1580000000000+0000)/" }

/-- Fixture account carrying a legacy date. -/
def accountX : Account :=
  { AccountID := "a-1", Name := "Sales", UpdatedDateUTC := "/Date(1580000000000+0000)/" }

/-- Fixture invoice. -/
def invoiceX : Invoice := ⟨"i-1"⟩

/-- Fixture organisation. -/
def orgX : Organisation := ⟨"Demo Org"⟩

/-- Fixture bank transaction. -/
def bankTxX : BankTransaction := ⟨"bt-1"⟩

/-- Fixture bank transfer. -/
def bankTrX : BankTransfer := ⟨"btr-1"⟩

/-- Fixture branding theme. -/
def themeX : BrandingTheme := ⟨"theme-1"⟩

/-- Fixture contact group. -/
def groupX : ContactGroup := ⟨"cg-1"⟩

/-- Fixture credit note. -/
def noteX : CreditNote := ⟨"cn-1"⟩

/-- Fixture currency. -/
def currencyX : Currency := ⟨"NZD"⟩

/-- Fixture employee. -/
def employeeX : Employee := ⟨"emp-1"⟩

/-- Fixture invoice reminder. -/
def reminderX : InvoiceReminder := ⟨true⟩

/-- Fixture item. -/
def itemX : Item := ⟨"item-1"⟩

/-- Fixture environment in which every remote exchange succeeds. -/
def envDemo : Env :=
  { tokenFromCode := fun code =>
      if code = "good-code" then .ok tokenA else .error (.authError "bad code"),
    refreshToken := fun _ => .ok tokenB,
    getTenants := fun _ => .ok [tenant1, tenant2],
    findContacts := fun _ tid =>
      .ok ⟨if tid = "tenant-1" then [contactX] else [contactY]⟩,
    findInvoices := fun _ _ => .ok ⟨[invoiceX]⟩,
    findAccounts := fun _ _ => .ok ⟨[accountX]⟩,
    findOrganisations := fun _ _ => .ok ⟨[orgX]⟩,
    findBankTransactions := fun _ _ => .ok ⟨[bankTxX]⟩,
    findBankTransfers := fun _ _ => .ok ⟨[bankTrX]⟩,
    findBrandingThemes := fun _ _ => .ok [themeX],
    findContactGroups := fun _ _ => .ok ⟨[groupX]⟩,
    findCreditNotes := fun _ _ => .ok ⟨[noteX]⟩,
    findCurrencies := fun _ _ => .ok ⟨[currencyX]⟩,
    findEmployees := fun _ _ => .ok ⟨[employeeX]⟩,
    findInvoiceReminders := fun _ _ => .ok ⟨[reminderX]⟩,
    findItems := fun _ _ => .ok ⟨[itemX]⟩,
    createContacts := fun _ _ c => .ok c }

/-- Fixture environment in which every remote exchange fails. -/
def envFail : Env :=
  { tokenFromCode := fun _ => .error (.authError "exchange failed"),
    refreshToken := fun _ => .error (.authError "refresh failed"),
    getTenants := fun _ => .error (.connectionError "tenants failed"),
    findContacts := fun _ _ => .error (.fetchError "contacts failed"),
    findInvoices := fun _ _ => .error (.fetchError "invoices failed"),
    findAccounts := fun _ _ => .error (.fetchError "accounts failed"),
    findOrganisations := fun _ _ => .error (.fetchError "organisations failed"),
    findBankTransactions := fun _ _ => .error (.fetchError "bankTransactions failed"),
    findBankTransfers := fun _ _ => .error (.fetchError "bankTransfers failed"),
    findBrandingThemes := fun _ _ => .error (.fetchError "brandingThemes failed"),
    findContactGroups := fun _ _ => .error (.fetchError "contactGroups failed"),
    findCreditNotes := fun _ _ => .error (.fetchError "creditNotes failed"),
    findCurrencies := fun _ _ => .error (.fetchError "currencies failed"),
    findEmployees := fun _ _ => .error (.fetchError "employees failed"),
    findInvoiceReminders := fun _ _ => .error (.fetchError "invoiceReminders failed"),
    findItems := fun _ _ => .error (.fetchError "items failed"),
    createContacts := fun _ _ _ => .error (.fetchError "create failed") }

/-- Fixture environment in which tenant resolution succeeds but every
resource fetch fails. -/
def envFetchFail : Env :=
  { envFail with getTenants := fun _ => .ok [tenant1] }

/-- Fixture store holding one session for the nil user. -/
def storeA : Store := [(nilUUID, tokenA)]

/-- Fixture contacts gateway: the base-URL listing returns one contact
with a legacy date, per-id lookups return an empty collection. -/
def clContacts : ContactsClient :=
  { find := fun url _ _ =>
      if url = contactsURL then .ok ⟨[contactY]⟩ else .ok ⟨[]⟩,
    create := fun _ c => .ok c,
    update := fun _ c => .ok c }

/-- Fixture accounts gateway, as `clContacts`. -/
def clAccounts : AccountsClient :=
  { find := fun url _ _ =>
      if url = accountsURL then .ok ⟨[accountX]⟩ else .ok ⟨[]⟩,
    create := fun _ a => .ok a,
    update := fun _ a => .ok a,
    remove := fun _ => .ok ⟨[]⟩ }

/-- Fixture contacts gateway agreeing with `clContacts` on updates but
not on creates. -/
def clContacts2 : ContactsClient :=
  { clContacts with create := fun _ _ => .error (.fetchError "create rejected") }

/-- Fixture accounts gateway agreeing with `clAccounts` on updates but
not on removes. -/
def clAccounts2 : AccountsClient :=
  { clAccounts with remove := fun _ => .error (.fetchError "remove rejected") }

/-! Helper lemmas. -/

/-- Digit characters are never the slash that opens the legacy date
encoding. -/
theorem digitChar_ne_slash (n : Nat) : digitChar n ≠ '/' := by
  unfold digitChar
  split <;> decide

/-- With positive fuel the decimal rendering is non-empty and opens with
a digit (in particular not a slash). -/
theorem natDigitsAux_head :
    ∀ (fuel n : Nat), ∃ c cs, natDigitsAux (fuel + 1) n = c :: cs ∧ c ≠ '/' := by
  intro fuel
  induction fuel with
  | zero =>
    intro n
    by_cases h : n < 10
    · exact ⟨digitChar n, [], by simp [natDigitsAux, h], digitChar_ne_slash n⟩
    · exact ⟨digitChar (n % 10), [], by simp [natDigitsAux, h], digitChar_ne_slash _⟩
  | succ f ih =>
    intro n
    by_cases h : n < 10
    · exact ⟨digitChar n, [], by simp [natDigitsAux, h], digitChar_ne_slash n⟩
    · obtain ⟨c, cs, hEq, hc⟩ := ih (n / 10)
      refine ⟨c, cs ++ [digitChar (n % 10)], ?_, hc⟩
      rw [show natDigitsAux (f + 1 + 1) n =
            (if n < 10 then [digitChar n]
             else natDigitsAux (f + 1) (n / 10) ++ [digitChar (n % 10)]) from rfl,
          if_neg h, hEq, List.cons_append]

/-- The decimal rendering of a natural number opens with a digit. -/
theorem natDigits_head (n : Nat) : ∃ c cs, natDigits n = c :: cs ∧ c ≠ '/' :=
  natDigitsAux_head n n

/-- A zero-padded year opens with a digit character, never a slash. -/
theorem pad4_head (n : Nat) : ∃ c cs, pad4 n = c :: cs ∧ c ≠ '/' := by
  unfold pad4
  cases h : 4 - (natDigits n).length with
  | zero =>
    obtain ⟨c, cs, hEq, hc⟩ := natDigits_head n
    exact ⟨c, cs, by simp [hEq], hc⟩
  | succ k =>
    exact ⟨'0', List.replicate k '0' ++ natDigits n, by simp [List.replicate_succ], by decide⟩

/-- A character list whose head is not a slash is not in the legacy date
encoding. -/
theorem isLegacyDate_cons_false {c : Char} (cs : List Char) (h : c ≠ '/') :
    isLegacyDate (c :: cs) = false := by
  match cs with
  | [] => rfl
  | [c1] => rfl
  | [c1, c2] => rfl
  | [c1, c2, c3] => rfl
  | [c1, c2, c3, c4] => rfl
  | c1 :: c2 :: c3 :: c4 :: c5 :: rest => simp [isLegacyDate, h]

/-- Anything opening with a zero-padded year is not in the legacy date
encoding. -/
theorem isLegacyDate_pad4_append (y : Nat) (rest : List Char) :
    isLegacyDate (pad4 y ++ rest) = false := by
  obtain ⟨c, cs, hEq, hc⟩ := pad4_head y
  rw [hEq, List.cons_append]
  exact isLegacyDate_cons_false _ hc

/-- An RFC3339 rendering is never itself in the legacy date encoding. -/
theorem formatRFC3339_not_legacy (secs : Nat) :
    isLegacyDate (formatRFC3339 secs).data = false :=
  isLegacyDate_pad4_append _ _

/-- Normalization leaves a non-legacy string (such as an RFC3339
timestamp) unchanged. -/
theorem dotNet_nonLegacy_noop (s : String) (b : Bool)
    (h : isLegacyDate s.data = false) : DotNetJSONTimeToRFC3339 s b = .ok s := by
  simp [DotNetJSONTimeToRFC3339, h]

/-- Storing then reading a session for the same user returns the stored
token. -/
theorem getSession_createSession (st : Store) (u : UUID) (t : Token) :
    (st.createSession u t).getSession u = some t := by
  induction st with
  | nil => simp [Store.createSession, Store.getSession]
  | cons p rest ih =>
    obtain ⟨k, t'⟩ := p
    by_cases h : k = u <;> simp [Store.createSession, Store.getSession, h, ih]

/-- A contacts collection `res` is the element-wise date-normalized image
of the decoded collection `raw`: same length, and every element of `res`
is the corresponding element of `raw` with its `UpdatedDateUTC`
successfully normalized — no element is skipped. -/
def contactsNormalized (raw res : Contacts) : Prop :=
  res.contacts.length = raw.contacts.length ∧
  ∀ i (hi : i < res.contacts.length) (hj : i < raw.contacts.length),
    ∃ s, DotNetJSONTimeToRFC3339 (raw.contacts.get ⟨i, hj⟩).UpdatedDateUTC true = .ok s ∧
      res.contacts.get ⟨i, hi⟩ = { raw.contacts.get ⟨i, hj⟩ with UpdatedDateUTC := s }

/-- An accounts collection `res` is the element-wise date-normalized
image of the decoded collection `raw`, as `contactsNormalized`. -/
def accountsNormalized (raw res : Accounts) : Prop :=
  res.accounts.length = raw.accounts.length ∧
  ∀ i (hi : i < res.accounts.length) (hj : i < raw.accounts.length),
    ∃ s, DotNetJSONTimeToRFC3339 (raw.accounts.get ⟨i, hj⟩).UpdatedDateUTC true = .ok s ∧
      res.accounts.get ⟨i, hi⟩ = { raw.accounts.get ⟨i, hj⟩ with UpdatedDateUTC := s }

/-- Characterization of a successful run of the contact date-conversion
loop: it preserves the length and normalizes the date of every element in
place. -/
theorem convertContactList_ok :
    ∀ (l l' : List Contact), convertContactList l = .ok l' →
      l'.length = l.length ∧
      ∀ i (hi : i < l'.length) (hj : i < l.length),
        ∃ s, DotNetJSONTimeToRFC3339 (l.get ⟨i, hj⟩).UpdatedDateUTC true = .ok s ∧
          l'.get ⟨i, hi⟩ = { l.get ⟨i, hj⟩ with UpdatedDateUTC := s } := by
  intro l
  induction l with
  | nil =>
    intro l' h
    simp only [convertContactList] at h
    cases h
    exact ⟨rfl, fun i hi hj => absurd hj (by simp)⟩
  | cons c rest ih =>
    intro l' h
    simp only [convertContactList] at h
    cases hr : convertContactList rest with
    | error e => rw [hr] at h; cases h
    | ok rest' =>
      rw [hr] at h
      cases hc : DotNetJSONTimeToRFC3339 c.UpdatedDateUTC true with
      | error e => rw [hc] at h; cases h
      | ok d =>
        rw [hc] at h
        cases h
        obtain ⟨hlen, helem⟩ := ih rest' hr
        refine ⟨by simp [hlen], ?_⟩
        intro i hi hj
        cases i with
        | zero => exact ⟨d, hc, rfl⟩
        | succ i' =>
          exact helem i' (by simpa using hi) (by simpa using hj)

/-- Characterization of a successful run of the account date-conversion
loop, as `convertContactList_ok`. -/
theorem convertAccountList_ok :
    ∀ (l l' : List Account), convertAccountList l = .ok l' →
      l'.length = l.length ∧
      ∀ i (hi : i < l'.length) (hj : i < l.length),
        ∃ s, DotNetJSONTimeToRFC3339 (l.get ⟨i, hj⟩).UpdatedDateUTC true = .ok s ∧
          l'.get ⟨i, hi⟩ = { l.get ⟨i, hj⟩ with UpdatedDateUTC := s } := by
  intro l
  induction l with
  | nil =>
    intro l' h
    simp only [convertAccountList] at h
    cases h
    exact ⟨rfl, fun i hi hj => absurd hj (by simp)⟩
  | cons a rest ih =>
    intro l' h
    simp only [convertAccountList] at h
    cases hr : convertAccountList rest with
    | error e => rw [hr] at h; cases h
    | ok rest' =>
      rw [hr] at h
      cases hc : DotNetJSONTimeToRFC3339 a.UpdatedDateUTC true with
      | error e => rw [hc] at h; cases h
      | ok d =>
        rw [hc] at h
        cases h
        obtain ⟨hlen, helem⟩ := ih rest' hr
        refine ⟨by simp [hlen], ?_⟩
        intro i hi hj
        cases i with
        | zero => exact ⟨d, hc, rfl⟩
        | succ i' =>
          exact helem i' (by simpa using hi) (by simpa using hj)

/-- A successful decode step yields the element-wise normalized
collection (contacts). -/
theorem unmarshalContact_normalized (raw res : Contacts)
    (h : unmarshalContact raw = .ok res) : contactsNormalized raw res := by
  unfold unmarshalContact Contacts.convertDates at h
  cases hl : convertContactList raw.contacts with
  | error e => rw [hl] at h; cases h
  | ok l =>
    rw [hl] at h
    cases h
    exact convertContactList_ok raw.contacts l hl

/-- A successful decode step yields the element-wise normalized
collection (accounts). -/
theorem unmarshalAccount_normalized (raw res : Accounts)
    (h : unmarshalAccount raw = .ok res) : accountsNormalized raw res := by
  unfold unmarshalAccount Accounts.convertDates at h
  cases hl : convertAccountList raw.accounts with
  | error e => rw [hl] at h; cases h
  | ok l =>
    rw [hl] at h
    cases h
    exact convertAccountList_ok raw.accounts l hl

/-- The Go idiom `if len(xs) > 0 then first element else nil` is the
optional head. -/
theorem firstElem_eq_head {α : Type} (l : List α) :
    (if h : 0 < l.length then some (l.get ⟨0, h⟩) else none) = l.head? := by
  cases l with
  | nil => rfl
  | cons a t => simp

/-! Claim theorems. -/

/-- C4 (amended): normalization maps the legacy input
`/Date(1580000000000+0000)/` to the RFC3339 timestamp of the same
instant, which is `2020-01-26T00:53:20Z` (the spec's example value
`2020-01-25T22:13:20Z` denotes a different instant), and it is
idempotent: re-normalizing any successful output is a no-op, never a
silent corruption of the value. -/
theorem C4_normalization :
    DotNetJSONTimeToRFC3339 "/Date(1580000000000+0000)/" true = .ok "2020-01-26T00:53:20Z" ∧
    (∀ s r : String, DotNetJSONTimeToRFC3339 s true = .ok r →
      DotNetJSONTimeToRFC3339 r true = .ok r) := by
  refine ⟨by rfl, ?_⟩
  intro s r h
  by_cases hleg : isLegacyDate s.data
  · by_cases hd : (s.data.drop 6).takeWhile Char.isDigit = []
    · simp [DotNetJSONTimeToRFC3339, hleg, hd] at h
    · simp [DotNetJSONTimeToRFC3339, hleg, hd] at h
      subst h
      exact dotNet_nonLegacy_noop _ _ (formatRFC3339_not_legacy _)
  · simp [DotNetJSONTimeToRFC3339, hleg] at h
    subst h
    exact dotNet_nonLegacy_noop _ _ (by simpa using hleg)

/-- C4 counterexample: on the legacy input named by the claim the
normalized output is not the claimed timestamp `2020-01-25T22:13:20Z`
(1580000000000 milliseconds since the epoch is 2020-01-26T00:53:20Z). -/
theorem C4_counterexample :
    DotNetJSONTimeToRFC3339 "/Date(1580000000000+0000)/" true ≠
      Except.ok "2020-01-25T22:13:20Z" := by
  intro h
  rw [show DotNetJSONTimeToRFC3339 "/Date(1580000000000+0000)/" true =
        .ok "2020-01-26T00:53:20Z" from rfl] at h
  injection h with h'
  exact absurd h' (by decide)

/-- C4 witness: idempotence applied to the normalized form of the
claim's legacy input. -/
theorem C4_witness :
    DotNetJSONTimeToRFC3339 "2020-01-26T00:53:20Z" true = .ok "2020-01-26T00:53:20Z" :=
  C4_normalization.2 "/Date(1580000000000+0000)/" "2020-01-26T00:53:20Z" (by rfl)

/-- C3: every successful list or detail result of the contact and
account modules (FindContacts, FindContact, Create, Update, FindAccounts,
FindAccountsModifiedSince, FindAccount, RemoveAccount) is the
element-wise date-normalized image of the decoded collection: the
`UpdatedDateUTC` of every element is normalized before the value is
returned, and no element is skipped; a detail result is the head of such
a normalized collection. -/
theorem C3_uniform_normalization :
    (∀ (cl : ContactsClient) (res : Contacts), FindContacts cl = .ok res →
      ∃ raw, cl.find contactsURL [] [] = .ok raw ∧ contactsNormalized raw res) ∧
    (∀ (cl : ContactsClient) (contactID : UUID) (copt : Option Contact),
      FindContact cl contactID = .ok copt →
      ∃ raw res, cl.find (contactsURL ++ "/" ++ contactID) [] [] = .ok raw ∧
        contactsNormalized raw res ∧ copt = res.contacts.head?) ∧
    (∀ (c : Contacts) (cl : ContactsClient) (res : Contacts), c.Create cl = .ok res →
      ∃ raw, cl.create contactsURL c = .ok raw ∧ contactsNormalized raw res) ∧
    (∀ (c : Contact) (cl : ContactsClient) (res : Contacts), c.Update cl = .ok res →
      ∃ raw, cl.update (contactsURL ++ "/" ++ c.ContactID) ⟨[c]⟩ = .ok raw ∧
        contactsNormalized raw res) ∧
    (∀ (cl : AccountsClient) (q : List (String × String)) (res : Accounts),
      FindAccounts cl q = .ok res →
      ∃ raw, cl.find accountsURL [] q = .ok raw ∧ accountsNormalized raw res) ∧
    (∀ (cl : AccountsClient) (ms : Nat) (q : List (String × String)) (res : Accounts),
      FindAccountsModifiedSince cl ms q = .ok res →
      ∃ raw, cl.find accountsURL [("If-Modified-Since", formatRFC3339 ms)] q = .ok raw ∧
        accountsNormalized raw res) ∧
    (∀ (cl : AccountsClient) (accountID : UUID) (aopt : Option Account),
      FindAccount cl accountID = .ok aopt →
      ∃ raw res, cl.find (accountsURL ++ "/" ++ accountID) [] [] = .ok raw ∧
        accountsNormalized raw res ∧ aopt = res.accounts.head?) ∧
    (∀ (cl : AccountsClient) (accountID : UUID) (res : Accounts),
      RemoveAccount cl accountID = .ok res →
      ∃ raw, cl.remove (accountsURL ++ "/" ++ accountID) = .ok raw ∧
        accountsNormalized raw res) ∧
    (∀ (a : Accounts) (cl : AccountsClient) (res : Accounts), a.Create cl = .ok res →
      ∃ raw, cl.create accountsURL a = .ok raw ∧ accountsNormalized raw res) ∧
    (∀ (a : Account) (cl : AccountsClient) (res : Accounts), a.Update cl = .ok res →
      ∃ raw, cl.update (accountsURL ++ "/" ++ a.AccountID) ⟨[a]⟩ = .ok raw ∧
        accountsNormalized raw res) := by
  refine ⟨?_, ?_, ?_, ?_, ?_, ?_, ?_, ?_, ?_, ?_⟩
  · intro cl res h
    unfold FindContacts at h
    cases hf : cl.find contactsURL [] [] with
    | error e => simp [hf] at h
    | ok raw => simp only [hf] at h; exact ⟨raw, rfl, unmarshalContact_normalized raw res h⟩
  · intro cl contactID copt h
    unfold FindContact at h
    cases hf : cl.find (contactsURL ++ "/" ++ contactID) [] [] with
    | error e => simp [hf] at h
    | ok raw =>
      simp only [hf] at h
      cases hu : unmarshalContact raw with
      | error e => simp [hu] at h
      | ok res =>
        simp only [hu] at h
        rw [firstElem_eq_head] at h
        injection h with h'
        exact ⟨raw, res, rfl, unmarshalContact_normalized raw res hu, h'.symm⟩
  · intro c cl res h
    unfold Contacts.Create at h
    cases hf : cl.create contactsURL c with
    | error e => simp [hf] at h
    | ok raw => simp only [hf] at h; exact ⟨raw, rfl, unmarshalContact_normalized raw res h⟩
  · intro c cl res h
    unfold Contact.Update at h
    cases hf : cl.update (contactsURL ++ "/" ++ c.ContactID) ⟨[c]⟩ with
    | error e => simp [hf] at h
    | ok raw => simp only [hf] at h; exact ⟨raw, rfl, unmarshalContact_normalized raw res h⟩
  · intro cl q res h
    unfold FindAccounts at h
    cases hf : cl.find accountsURL [] q with
    | error e => simp [hf] at h
    | ok raw => simp only [hf] at h; exact ⟨raw, rfl, unmarshalAccount_normalized raw res h⟩
  · intro cl ms q res h
    unfold FindAccountsModifiedSince at h
    cases hf : cl.find accountsURL [("If-Modified-Since", formatRFC3339 ms)] q with
    | error e => simp [hf] at h
    | ok raw => simp only [hf] at h; exact ⟨raw, rfl, unmarshalAccount_normalized raw res h⟩
  · intro cl accountID aopt h
    unfold FindAccount at h
    cases hf : cl.find (accountsURL ++ "/" ++ accountID) [] [] with
    | error e => simp [hf] at h
    | ok raw =>
      simp only [hf] at h
      cases hu : unmarshalAccount raw with
      | error e => simp [hu] at h
      | ok res =>
        simp only [hu] at h
        rw [firstElem_eq_head] at h
        injection h with h'
        exact ⟨raw, res, rfl, unmarshalAccount_normalized raw res hu, h'.symm⟩
  · intro cl accountID res h
    unfold RemoveAccount at h
    cases hf : cl.remove (accountsURL ++ "/" ++ accountID) with
    | error e => simp [hf] at h
    | ok raw => simp only [hf] at h; exact ⟨raw, rfl, unmarshalAccount_normalized raw res h⟩
  · intro a cl res h
    unfold Accounts.Create at h
    cases hf : cl.create accountsURL a with
    | error e => simp [hf] at h
    | ok raw => simp only [hf] at h; exact ⟨raw, rfl, unmarshalAccount_normalized raw res h⟩
  · intro a cl res h
    unfold Account.Update at h
    cases hf : cl.update (accountsURL ++ "/" ++ a.AccountID) ⟨[a]⟩ with
    | error e => simp [hf] at h
    | ok raw => simp only [hf] at h; exact ⟨raw, rfl, unmarshalAccount_normalized raw res h⟩

/-- C3 witness: the listing returned by the fixture gateway has the
legacy date of its single contact normalized. -/
theorem C3_witness :
    ∃ raw, clContacts.find contactsURL [] [] = .ok raw ∧
      contactsNormalized raw ⟨[{ contactY with UpdatedDateUTC := "2020-01-26T00:53:20Z" }]⟩ :=
  C3_uniform_normalization.1 clContacts
    ⟨[{ contactY with UpdatedDateUTC := "2020-01-26T00:53:20Z" }]⟩ (by rfl)

/-- C9: when the remote platform answers a single-item lookup with an
empty decoded collection, `FindContact` and `FindAccount` return an
absent item together with no error, so the caller can only detect the
miss by checking the returned pointer. -/
theorem C9_empty_lookup :
    (∀ (cl : ContactsClient) (contactID : UUID),
      cl.find (contactsURL ++ "/" ++ contactID) [] [] = .ok ⟨[]⟩ →
      FindContact cl contactID = .ok none) ∧
    (∀ (cl : AccountsClient) (accountID : UUID),
      cl.find (accountsURL ++ "/" ++ accountID) [] [] = .ok ⟨[]⟩ →
      FindAccount cl accountID = .ok none) := by
  constructor
  · intro cl contactID h
    unfold FindContact
    rw [h]
    rfl
  · intro cl accountID h
    unfold FindAccount
    rw [h]
    rfl

/-- C9 witness: the fixture gateways answer per-id lookups with empty
collections, and both lookups return an absent item with no error. -/
theorem C9_witness :
    FindContact clContacts "c-9" = .ok none ∧ FindAccount clAccounts "a-9" = .ok none :=
  ⟨C9_empty_lookup.1 clContacts "c-9" (by rfl),
   C9_empty_lookup.2 clAccounts "a-9" (by rfl)⟩

/-- C10: the update of a contact or account depends on the gateway only
through the single update request whose URL is the base resource URL
extended with a slash and the receiver's id, and whose body is the
receiver wrapped as a one-element collection; two gateways agreeing on
that one request produce identical update results. The embedding is
value-based, so the receiver itself is unchanged by the call. -/
theorem C10_update_request :
    (∀ (c : Contact) (cl1 cl2 : ContactsClient),
      cl1.update (contactsURL ++ "/" ++ c.ContactID) ⟨[c]⟩ =
        cl2.update (contactsURL ++ "/" ++ c.ContactID) ⟨[c]⟩ →
      c.Update cl1 = c.Update cl2) ∧
    (∀ (a : Account) (cl1 cl2 : AccountsClient),
      cl1.update (accountsURL ++ "/" ++ a.AccountID) ⟨[a]⟩ =
        cl2.update (accountsURL ++ "/" ++ a.AccountID) ⟨[a]⟩ →
      a.Update cl1 = a.Update cl2) := by
  constructor
  · intro c cl1 cl2 h
    simp only [Contact.Update, h]
  · intro a cl1 cl2 h
    simp only [Account.Update, h]

/-- C10 witness: two fixture gateways differing everywhere except on the
update request agree on the update result. -/
theorem C10_witness :
    contactY.Update clContacts = contactY.Update clContacts2 ∧
    accountX.Update clAccounts = accountX.Update clAccounts2 :=
  ⟨C10_update_request.1 contactY clContacts clContacts2 rfl,
   C10_update_request.2 accountX clAccounts clAccounts2 rfl⟩

/-- When every per-tenant fetch succeeds, the fetch loop returns the
projected per-tenant lists concatenated in tenant order. -/
theorem fetchLoop_ok {β α : Type} (fetch : UUID → Except SdkError β) (proj : β → List α)
    (g : Tenant → β) :
    ∀ (ts : List Tenant), (∀ tn ∈ ts, fetch tn.TenantID = .ok (g tn)) →
      fetchLoop fetch proj ts = .ok (ts.map (fun tn => proj (g tn))).flatten := by
  intro ts
  induction ts with
  | nil => intro h; rfl
  | cons tn rest ih =>
    intro h
    have h1 : fetch tn.TenantID = .ok (g tn) := h tn (by simp)
    have h2 := ih (fun x hx => h x (by simp [hx]))
    simp only [fetchLoop, h1, h2]
    rfl

/-- C1: for a session whose token expiry is in the past, the
authenticated transport performs exactly one refresh exchange and
persists the refreshed token via `UpdateSession` before the underlying
request is sent; the request then carries the refreshed bearer and the
refreshed token is stored when the round trip completes. Resource
handlers never perform the refresh themselves: their outcome is
invariant under any replacement of the refresh oracle. -/
theorem C1_refresh_on_demand :
    (∀ (env : Env) (now : Int) (sess : Session) (st : Store) (t t' : Token),
      sess.Token = some t →
      t.Expiry < now →
      Provider.Refresh env (some t) = .ok t' →
      (st.getSession sess.UserID).isSome = true →
      Client.roundTrip env now sess st =
        ⟨[.refreshed, .persisted, .sent t'.AccessToken], .ok t',
          st.createSession sess.UserID t'⟩ ∧
      (Client.roundTrip env now sess st).events.count .refreshed = 1 ∧
      (Client.roundTrip env now sess st).store.getSession sess.UserID = some t') ∧
    (∀ (env : Env) (f : Token → Except SdkError Token) (st : Store),
      XeroContactsHandler { env with refreshToken := f } st = XeroContactsHandler env st ∧
      XeroInvoicesHandler { env with refreshToken := f } st = XeroInvoicesHandler env st ∧
      XeroAccountsHandler { env with refreshToken := f } st = XeroAccountsHandler env st) := by
  constructor
  · intro env now sess st t t' hT hExp hR hS
    have hle : t.Expiry ≤ now := le_of_lt hExp
    obtain ⟨u, hu⟩ := Option.isSome_iff_exists.mp hS
    have hrt : Client.roundTrip env now sess st =
        ⟨[.refreshed, .persisted, .sent t'.AccessToken], .ok t',
          st.createSession sess.UserID t'⟩ := by
      simp only [Client.roundTrip, hT, if_pos hle, hR, Store.updateSession, hu]
    refine ⟨hrt, ?_, ?_⟩
    · rw [hrt]
      rfl
    · rw [hrt]
      exact getSession_createSession st sess.UserID t'
  · intro env f st
    exact ⟨rfl, rfl, rfl⟩

/-- C1 witness: the fixture session holds the expired `tokenA`; one
round trip at instant 1000 refreshes to `tokenB`, persists it and sends
with the new bearer. -/
theorem C1_witness :
    Client.roundTrip envDemo 1000 ⟨some tokenA, nilUUID, nilUUID⟩ storeA =
      ⟨[.refreshed, .persisted, .sent tokenB.AccessToken], .ok tokenB,
        storeA.createSession nilUUID tokenB⟩ ∧
    (Client.roundTrip envDemo 1000 ⟨some tokenA, nilUUID, nilUUID⟩ storeA).events.count
        .refreshed = 1 ∧
    (Client.roundTrip envDemo 1000 ⟨some tokenA, nilUUID, nilUUID⟩ storeA).store.getSession
        nilUUID = some tokenB := by
  have h := C1_refresh_on_demand.1 envDemo 1000 ⟨some tokenA, nilUUID, nilUUID⟩ storeA
    tokenA tokenB rfl (by decide) (by rfl) (by rfl)
  exact ⟨h.1, h.2.1, h.2.2⟩

/-- C2: every resource-listing handler in main.go — contacts, invoices,
accounts, organisations, bank transactions, bank transfers, branding
themes, contact groups, credit notes, currencies, employees, invoice
reminders and invoice items — is an instance of the one uniform listing
shape (load the session, resolve all tenants, fetch per tenant,
concatenate, render), and on the success path each renders exactly the
per-tenant results concatenated in tenant order. -/
theorem C2_listing_loop :
    (∀ (env : Env) (st : Store),
      XeroContactsHandler env st =
        listHandler (callGetTenants env) (callFindContacts env) Contacts.contacts
          "contacts" st ∧
      XeroInvoicesHandler env st =
        listHandler (callGetTenants env) (callFindInvoices env) Invoices.invoices
          "invoices" st ∧
      XeroAccountsHandler env st =
        listHandler (callGetTenants env) (callFindAccounts env) Accounts.accounts
          "accounts" st ∧
      XeroOrganisationsHandler env st =
        listHandler (callGetTenants env) (callFindOrganisations env) Organisations.organisations
          "organisations" st ∧
      XeroBankTransactionsHandler env st =
        listHandler (callGetTenants env) (callFindBankTransactions env) BankTransactions.bankTransactions
          "bankTransactions" st ∧
      XeroBankTransfersHandler env st =
        listHandler (callGetTenants env) (callFindBankTransfers env) BankTransfers.bankTransfers
          "bankTransfers" st ∧
      XeroBrandingThemeHandler env st =
        listHandler (callGetTenants env) (callFindBrandingThemes env) (fun themes => themes)
          "brandingThemes" st ∧
      XeroContactGroupsHandler env st =
        listHandler (callGetTenants env) (callFindContactGroups env) ContactGroups.contactGroups
          "contactGroups" st ∧
      XeroCreditNotesHandler env st =
        listHandler (callGetTenants env) (callFindCreditNotes env) CreditNotes.creditNotes
          "creditNotes" st ∧
      XeroCurrencyHandler env st =
        listHandler (callGetTenants env) (callFindCurrencies env) Currencies.currencies
          "currencies" st ∧
      XeroEmployeesHandler env st =
        listHandler (callGetTenants env) (callFindEmployees env) Employees.Employess
          "employees" st ∧
      XeroInvoiceRemindersHandler env st =
        listHandler (callGetTenants env) (callFindInvoiceReminders env) InvoiceReminders.invoiceReminders
          "invoiceReminders" st ∧
      XeroInvoiceItemsHandler env st =
        listHandler (callGetTenants env) (callFindItems env) Items.items
          "invoiceItems" st) ∧
    (∀ (env : Env) (st : Store) (tenants : List Tenant) (g : Tenant → List Contact),
      callGetTenants env (st.getSession nilUUID) = .ok tenants →
      (∀ tn ∈ tenants, callFindContacts env (st.getSession nilUUID) tn.TenantID = .ok ⟨g tn⟩) →
      XeroContactsHandler env st = .render "contacts" (tenants.map g).flatten) ∧
    (∀ (env : Env) (st : Store) (tenants : List Tenant) (g : Tenant → List Invoice),
      callGetTenants env (st.getSession nilUUID) = .ok tenants →
      (∀ tn ∈ tenants, callFindInvoices env (st.getSession nilUUID) tn.TenantID = .ok ⟨g tn⟩) →
      XeroInvoicesHandler env st = .render "invoices" (tenants.map g).flatten) ∧
    (∀ (env : Env) (st : Store) (tenants : List Tenant) (g : Tenant → List Account),
      callGetTenants env (st.getSession nilUUID) = .ok tenants →
      (∀ tn ∈ tenants, callFindAccounts env (st.getSession nilUUID) tn.TenantID = .ok ⟨g tn⟩) →
      XeroAccountsHandler env st = .render "accounts" (tenants.map g).flatten) ∧
    (∀ (env : Env) (st : Store) (tenants : List Tenant) (g : Tenant → List Organisation),
      callGetTenants env (st.getSession nilUUID) = .ok tenants →
      (∀ tn ∈ tenants, callFindOrganisations env (st.getSession nilUUID) tn.TenantID = .ok ⟨g tn⟩) →
      XeroOrganisationsHandler env st = .render "organisations" (tenants.map g).flatten) ∧
    (∀ (env : Env) (st : Store) (tenants : List Tenant) (g : Tenant → List BankTransaction),
      callGetTenants env (st.getSession nilUUID) = .ok tenants →
      (∀ tn ∈ tenants, callFindBankTransactions env (st.getSession nilUUID) tn.TenantID = .ok ⟨g tn⟩) →
      XeroBankTransactionsHandler env st = .render "bankTransactions" (tenants.map g).flatten) ∧
    (∀ (env : Env) (st : Store) (tenants : List Tenant) (g : Tenant → List BankTransfer),
      callGetTenants env (st.getSession nilUUID) = .ok tenants →
      (∀ tn ∈ tenants, callFindBankTransfers env (st.getSession nilUUID) tn.TenantID = .ok ⟨g tn⟩) →
      XeroBankTransfersHandler env st = .render "bankTransfers" (tenants.map g).flatten) ∧
    (∀ (env : Env) (st : Store) (tenants : List Tenant) (g : Tenant → List BrandingTheme),
      callGetTenants env (st.getSession nilUUID) = .ok tenants →
      (∀ tn ∈ tenants, callFindBrandingThemes env (st.getSession nilUUID) tn.TenantID = .ok (g tn)) →
      XeroBrandingThemeHandler env st = .render "brandingThemes" (tenants.map g).flatten) ∧
    (∀ (env : Env) (st : Store) (tenants : List Tenant) (g : Tenant → List ContactGroup),
      callGetTenants env (st.getSession nilUUID) = .ok tenants →
      (∀ tn ∈ tenants, callFindContactGroups env (st.getSession nilUUID) tn.TenantID = .ok ⟨g tn⟩) →
      XeroContactGroupsHandler env st = .render "contactGroups" (tenants.map g).flatten) ∧
    (∀ (env : Env) (st : Store) (tenants : List Tenant) (g : Tenant → List CreditNote),
      callGetTenants env (st.getSession nilUUID) = .ok tenants →
      (∀ tn ∈ tenants, callFindCreditNotes env (st.getSession nilUUID) tn.TenantID = .ok ⟨g tn⟩) →
      XeroCreditNotesHandler env st = .render "creditNotes" (tenants.map g).flatten) ∧
    (∀ (env : Env) (st : Store) (tenants : List Tenant) (g : Tenant → List Currency),
      callGetTenants env (st.getSession nilUUID) = .ok tenants →
      (∀ tn ∈ tenants, callFindCurrencies env (st.getSession nilUUID) tn.TenantID = .ok ⟨g tn⟩) →
      XeroCurrencyHandler env st = .render "currencies" (tenants.map g).flatten) ∧
    (∀ (env : Env) (st : Store) (tenants : List Tenant) (g : Tenant → List Employee),
      callGetTenants env (st.getSession nilUUID) = .ok tenants →
      (∀ tn ∈ tenants, callFindEmployees env (st.getSession nilUUID) tn.TenantID = .ok ⟨g tn⟩) →
      XeroEmployeesHandler env st = .render "employees" (tenants.map g).flatten) ∧
    (∀ (env : Env) (st : Store) (tenants : List Tenant) (g : Tenant → List InvoiceReminder),
      callGetTenants env (st.getSession nilUUID) = .ok tenants →
      (∀ tn ∈ tenants, callFindInvoiceReminders env (st.getSession nilUUID) tn.TenantID = .ok ⟨g tn⟩) →
      XeroInvoiceRemindersHandler env st = .render "invoiceReminders" (tenants.map g).flatten) ∧
    (∀ (env : Env) (st : Store) (tenants : List Tenant) (g : Tenant → List Item),
      callGetTenants env (st.getSession nilUUID) = .ok tenants →
      (∀ tn ∈ tenants, callFindItems env (st.getSession nilUUID) tn.TenantID = .ok ⟨g tn⟩) →
      XeroInvoiceItemsHandler env st = .render "invoiceItems" (tenants.map g).flatten) := by
  refine ⟨?_, ?_, ?_, ?_, ?_, ?_, ?_, ?_, ?_, ?_, ?_, ?_, ?_, ?_⟩
  · intro env st
    refine ⟨?_, ?_, ?_, ?_, ?_, ?_, ?_, ?_, ?_, ?_, ?_, ?_, ?_⟩
    · unfold XeroContactsHandler listHandler
      dsimp only
      cases callGetTenants env (st.getSession nilUUID) with
      | error e => rfl
      | ok tenants =>
        dsimp only
        cases fetchLoop (callFindContacts env (st.getSession nilUUID))
            Contacts.contacts tenants with
        | error e => rfl
        | ok xs => rfl
    · unfold XeroInvoicesHandler listHandler
      dsimp only
      cases callGetTenants env (st.getSession nilUUID) with
      | error e => rfl
      | ok tenants =>
        dsimp only
        cases fetchLoop (callFindInvoices env (st.getSession nilUUID))
            Invoices.invoices tenants with
        | error e => rfl
        | ok xs => rfl
    · unfold XeroAccountsHandler listHandler
      dsimp only
      cases callGetTenants env (st.getSession nilUUID) with
      | error e => rfl
      | ok tenants =>
        dsimp only
        cases fetchLoop (callFindAccounts env (st.getSession nilUUID))
            Accounts.accounts tenants with
        | error e => rfl
        | ok xs => rfl
    · unfold XeroOrganisationsHandler listHandler
      dsimp only
      cases callGetTenants env (st.getSession nilUUID) with
      | error e => rfl
      | ok tenants =>
        dsimp only
        cases fetchLoop (callFindOrganisations env (st.getSession nilUUID))
            Organisations.organisations tenants with
        | error e => rfl
        | ok xs => rfl
    · unfold XeroBankTransactionsHandler listHandler
      dsimp only
      cases callGetTenants env (st.getSession nilUUID) with
      | error e => rfl
      | ok tenants =>
        dsimp only
        cases fetchLoop (callFindBankTransactions env (st.getSession nilUUID))
            BankTransactions.bankTransactions tenants with
        | error e => rfl
        | ok xs => rfl
    · unfold XeroBankTransfersHandler listHandler
      dsimp only
      cases callGetTenants env (st.getSession nilUUID) with
      | error e => rfl
      | ok tenants =>
        dsimp only
        cases fetchLoop (callFindBankTransfers env (st.getSession nilUUID))
            BankTransfers.bankTransfers tenants with
        | error e => rfl
        | ok xs => rfl
    · unfold XeroBrandingThemeHandler listHandler
      dsimp only
      cases callGetTenants env (st.getSession nilUUID) with
      | error e => rfl
      | ok tenants =>
        dsimp only
        cases fetchLoop (callFindBrandingThemes env (st.getSession nilUUID))
            (fun themes => themes) tenants with
        | error e => rfl
        | ok xs => rfl
    · unfold XeroContactGroupsHandler listHandler
      dsimp only
      cases callGetTenants env (st.getSession nilUUID) with
      | error e => rfl
      | ok tenants =>
        dsimp only
        cases fetchLoop (callFindContactGroups env (st.getSession nilUUID))
            ContactGroups.contactGroups tenants with
        | error e => rfl
        | ok xs => rfl
    · unfold XeroCreditNotesHandler listHandler
      dsimp only
      cases callGetTenants env (st.getSession nilUUID) with
      | error e => rfl
      | ok tenants =>
        dsimp only
        cases fetchLoop (callFindCreditNotes env (st.getSession nilUUID))
            CreditNotes.creditNotes tenants with
        | error e => rfl
        | ok xs => rfl
    · unfold XeroCurrencyHandler listHandler
      dsimp only
      cases callGetTenants env (st.getSession nilUUID) with
      | error e => rfl
      | ok tenants =>
        dsimp only
        cases fetchLoop (callFindCurrencies env (st.getSession nilUUID))
            Currencies.currencies tenants with
        | error e => rfl
        | ok xs => rfl
    · unfold XeroEmployeesHandler listHandler
      dsimp only
      cases callGetTenants env (st.getSession nilUUID) with
      | error e => rfl
      | ok tenants =>
        dsimp only
        cases fetchLoop (callFindEmployees env (st.getSession nilUUID))
            Employees.Employess tenants with
        | error e => rfl
        | ok xs => rfl
    · unfold XeroInvoiceRemindersHandler listHandler
      dsimp only
      cases callGetTenants env (st.getSession nilUUID) with
      | error e => rfl
      | ok tenants =>
        dsimp only
        cases fetchLoop (callFindInvoiceReminders env (st.getSession nilUUID))
            InvoiceReminders.invoiceReminders tenants with
        | error e => rfl
        | ok xs => rfl
    · unfold XeroInvoiceItemsHandler listHandler
      dsimp only
      cases callGetTenants env (st.getSession nilUUID) with
      | error e => rfl
      | ok tenants =>
        dsimp only
        cases fetchLoop (callFindItems env (st.getSession nilUUID))
            Items.items tenants with
        | error e => rfl
        | ok xs => rfl
  · intro env st tenants g hT hF
    have hl := fetchLoop_ok (callFindContacts env (st.getSession nilUUID))
      Contacts.contacts (fun tn => ⟨g tn⟩) tenants hF
    simp only [XeroContactsHandler, hT, hl]
  · intro env st tenants g hT hF
    have hl := fetchLoop_ok (callFindInvoices env (st.getSession nilUUID))
      Invoices.invoices (fun tn => ⟨g tn⟩) tenants hF
    simp only [XeroInvoicesHandler, hT, hl]
  · intro env st tenants g hT hF
    have hl := fetchLoop_ok (callFindAccounts env (st.getSession nilUUID))
      Accounts.accounts (fun tn => ⟨g tn⟩) tenants hF
    simp only [XeroAccountsHandler, hT, hl]
  · intro env st tenants g hT hF
    have hl := fetchLoop_ok (callFindOrganisations env (st.getSession nilUUID))
      Organisations.organisations (fun tn => ⟨g tn⟩) tenants hF
    simp only [XeroOrganisationsHandler, hT, hl]
  · intro env st tenants g hT hF
    have hl := fetchLoop_ok (callFindBankTransactions env (st.getSession nilUUID))
      BankTransactions.bankTransactions (fun tn => ⟨g tn⟩) tenants hF
    simp only [XeroBankTransactionsHandler, hT, hl]
  · intro env st tenants g hT hF
    have hl := fetchLoop_ok (callFindBankTransfers env (st.getSession nilUUID))
      BankTransfers.bankTransfers (fun tn => ⟨g tn⟩) tenants hF
    simp only [XeroBankTransfersHandler, hT, hl]
  · intro env st tenants g hT hF
    have hl := fetchLoop_ok (callFindBrandingThemes env (st.getSession nilUUID))
      (fun themes => themes) g tenants hF
    simp only [XeroBrandingThemeHandler, hT, hl]
  · intro env st tenants g hT hF
    have hl := fetchLoop_ok (callFindContactGroups env (st.getSession nilUUID))
      ContactGroups.contactGroups (fun tn => ⟨g tn⟩) tenants hF
    simp only [XeroContactGroupsHandler, hT, hl]
  · intro env st tenants g hT hF
    have hl := fetchLoop_ok (callFindCreditNotes env (st.getSession nilUUID))
      CreditNotes.creditNotes (fun tn => ⟨g tn⟩) tenants hF
    simp only [XeroCreditNotesHandler, hT, hl]
  · intro env st tenants g hT hF
    have hl := fetchLoop_ok (callFindCurrencies env (st.getSession nilUUID))
      Currencies.currencies (fun tn => ⟨g tn⟩) tenants hF
    simp only [XeroCurrencyHandler, hT, hl]
  · intro env st tenants g hT hF
    have hl := fetchLoop_ok (callFindEmployees env (st.getSession nilUUID))
      Employees.Employess (fun tn => ⟨g tn⟩) tenants hF
    simp only [XeroEmployeesHandler, hT, hl]
  · intro env st tenants g hT hF
    have hl := fetchLoop_ok (callFindInvoiceReminders env (st.getSession nilUUID))
      InvoiceReminders.invoiceReminders (fun tn => ⟨g tn⟩) tenants hF
    simp only [XeroInvoiceRemindersHandler, hT, hl]
  · intro env st tenants g hT hF
    have hl := fetchLoop_ok (callFindItems env (st.getSession nilUUID))
      Items.items (fun tn => ⟨g tn⟩) tenants hF
    simp only [XeroInvoiceItemsHandler, hT, hl]

/-- C2 witness: against the fixture environment with two tenants, all
thirteen listing handlers render the per-tenant results concatenated in
tenant order. -/
theorem C2_witness :
    XeroContactsHandler envDemo storeA = .render "contacts" [contactX, contactY] ∧
    XeroInvoicesHandler envDemo storeA = .render "invoices" [invoiceX, invoiceX] ∧
    XeroAccountsHandler envDemo storeA = .render "accounts" [accountX, accountX] ∧
    XeroOrganisationsHandler envDemo storeA = .render "organisations" [orgX, orgX] ∧
    XeroBankTransactionsHandler envDemo storeA = .render "bankTransactions" [bankTxX, bankTxX] ∧
    XeroBankTransfersHandler envDemo storeA = .render "bankTransfers" [bankTrX, bankTrX] ∧
    XeroBrandingThemeHandler envDemo storeA = .render "brandingThemes" [themeX, themeX] ∧
    XeroContactGroupsHandler envDemo storeA = .render "contactGroups" [groupX, groupX] ∧
    XeroCreditNotesHandler envDemo storeA = .render "creditNotes" [noteX, noteX] ∧
    XeroCurrencyHandler envDemo storeA = .render "currencies" [currencyX, currencyX] ∧
    XeroEmployeesHandler envDemo storeA = .render "employees" [employeeX, employeeX] ∧
    XeroInvoiceRemindersHandler envDemo storeA = .render "invoiceReminders" [reminderX, reminderX] ∧
    XeroInvoiceItemsHandler envDemo storeA = .render "invoiceItems" [itemX, itemX] := by
  obtain ⟨hsame, h1, h2, h3, h4, h5, h6, h7, h8, h9, h10, h11, h12, h13⟩ := C2_listing_loop
  refine ⟨?_, ?_, ?_, ?_, ?_, ?_, ?_, ?_, ?_, ?_, ?_, ?_, ?_⟩
  · exact h1 envDemo storeA [tenant1, tenant2]
      (fun tn => if tn.TenantID = "tenant-1" then [contactX] else [contactY])
      (by rfl) (by intro tn htn; fin_cases htn <;> rfl)
  · exact h2 envDemo storeA [tenant1, tenant2]
      (fun _ => [invoiceX])
      (by rfl) (by intro tn htn; fin_cases htn <;> rfl)
  · exact h3 envDemo storeA [tenant1, tenant2]
      (fun _ => [accountX])
      (by rfl) (by intro tn htn; fin_cases htn <;> rfl)
  · exact h4 envDemo storeA [tenant1, tenant2]
      (fun _ => [orgX])
      (by rfl) (by intro tn htn; fin_cases htn <;> rfl)
  · exact h5 envDemo storeA [tenant1, tenant2]
      (fun _ => [bankTxX])
      (by rfl) (by intro tn htn; fin_cases htn <;> rfl)
  · exact h6 envDemo storeA [tenant1, tenant2]
      (fun _ => [bankTrX])
      (by rfl) (by intro tn htn; fin_cases htn <;> rfl)
  · exact h7 envDemo storeA [tenant1, tenant2]
      (fun _ => [themeX])
      (by rfl) (by intro tn htn; fin_cases htn <;> rfl)
  · exact h8 envDemo storeA [tenant1, tenant2]
      (fun _ => [groupX])
      (by rfl) (by intro tn htn; fin_cases htn <;> rfl)
  · exact h9 envDemo storeA [tenant1, tenant2]
      (fun _ => [noteX])
      (by rfl) (by intro tn htn; fin_cases htn <;> rfl)
  · exact h10 envDemo storeA [tenant1, tenant2]
      (fun _ => [currencyX])
      (by rfl) (by intro tn htn; fin_cases htn <;> rfl)
  · exact h11 envDemo storeA [tenant1, tenant2]
      (fun _ => [employeeX])
      (by rfl) (by intro tn htn; fin_cases htn <;> rfl)
  · exact h12 envDemo storeA [tenant1, tenant2]
      (fun _ => [reminderX])
      (by rfl) (by intro tn htn; fin_cases htn <;> rfl)
  · exact h13 envDemo storeA [tenant1, tenant2]
      (fun _ => [itemX])
      (by rfl) (by intro tn htn; fin_cases htn <;> rfl)

/-- C5 (amended): a GET to /connections before any session exists does
fail with an auth error, but the handler aborts the request via panic
instead of mapping the error to an HTTP 401 response. -/
theorem C5_connections_no_session (env : Env) (st : Store)
    (h : st.getSession nilUUID = none) :
    XeroConnectionsHandler env st = .panicked (.authError "no session token") := by
  simp [XeroConnectionsHandler, h, callGetTenants]

/-- C5 counterexample: with the empty store the connections handler's
outcome is the panic abort, not a rendered or JSON 401 response (the
outcome constructors are mutually exclusive). -/
theorem C5_counterexample :
    XeroConnectionsHandler envDemo [] = .panicked (.authError "no session token") := rfl

/-- C5 witness: the amended statement applied to the empty store and the
failing environment. -/
theorem C5_witness :
    XeroConnectionsHandler envFail [] = .panicked (.authError "no session token") :=
  C5_connections_no_session envFail [] rfl

/-- C6: in every embedded handler — auth callback, refresh, connections,
contact creation and all thirteen resource-listing handlers — an error
from an authenticated remote call (token exchange, refresh, tenant
resolution, resource fetch or contact creation) aborts the request via
panic; no handler continues past such an error or maps it to an HTTP
response. -/
theorem C6_panic_on_error :
    (∀ (env : Env) (code : String) (st : Store) (e : SdkError),
      Provider.GetTokenFromCode env code = .error e →
      XeroAuthCallbackHandler env code st = (.panicked e, st)) ∧
    (∀ (env : Env) (st : Store) (e : SdkError),
      Provider.Refresh env (st.getSession nilUUID) = .error e →
      XeroRefreshTokenHandler env st = (.panicked e, st)) ∧
    (∀ (env : Env) (cid : UUID) (st : Store) (e : SdkError),
      callGetTenants env (st.getSession nilUUID) = .error e →
      XeroConnectionsHandler env st = .panicked e ∧
      XeroContactsCreateHandler env cid st = .panicked e ∧
      XeroContactsHandler env st = .panicked e ∧
      XeroInvoicesHandler env st = .panicked e ∧
      XeroAccountsHandler env st = .panicked e ∧
      XeroOrganisationsHandler env st = .panicked e ∧
      XeroBankTransactionsHandler env st = .panicked e ∧
      XeroBankTransfersHandler env st = .panicked e ∧
      XeroBrandingThemeHandler env st = .panicked e ∧
      XeroContactGroupsHandler env st = .panicked e ∧
      XeroCreditNotesHandler env st = .panicked e ∧
      XeroCurrencyHandler env st = .panicked e ∧
      XeroEmployeesHandler env st = .panicked e ∧
      XeroInvoiceRemindersHandler env st = .panicked e ∧
      XeroInvoiceItemsHandler env st = .panicked e) ∧
    (∀ (env : Env) (st : Store) (tenants : List Tenant) (e : SdkError),
      callGetTenants env (st.getSession nilUUID) = .ok tenants →
      fetchLoop (callFindContacts env (st.getSession nilUUID)) Contacts.contacts tenants =
        .error e →
      XeroContactsHandler env st = .panicked e) ∧
    (∀ (env : Env) (st : Store) (tenants : List Tenant) (e : SdkError),
      callGetTenants env (st.getSession nilUUID) = .ok tenants →
      fetchLoop (callFindInvoices env (st.getSession nilUUID)) Invoices.invoices tenants =
        .error e →
      XeroInvoicesHandler env st = .panicked e) ∧
    (∀ (env : Env) (st : Store) (tenants : List Tenant) (e : SdkError),
      callGetTenants env (st.getSession nilUUID) = .ok tenants →
      fetchLoop (callFindAccounts env (st.getSession nilUUID)) Accounts.accounts tenants =
        .error e →
      XeroAccountsHandler env st = .panicked e) ∧
    (∀ (env : Env) (st : Store) (tenants : List Tenant) (e : SdkError),
      callGetTenants env (st.getSession nilUUID) = .ok tenants →
      fetchLoop (callFindOrganisations env (st.getSession nilUUID)) Organisations.organisations tenants =
        .error e →
      XeroOrganisationsHandler env st = .panicked e) ∧
    (∀ (env : Env) (st : Store) (tenants : List Tenant) (e : SdkError),
      callGetTenants env (st.getSession nilUUID) = .ok tenants →
      fetchLoop (callFindBankTransactions env (st.getSession nilUUID)) BankTransactions.bankTransactions tenants =
        .error e →
      XeroBankTransactionsHandler env st = .panicked e) ∧
    (∀ (env : Env) (st : Store) (tenants : List Tenant) (e : SdkError),
      callGetTenants env (st.getSession nilUUID) = .ok tenants →
      fetchLoop (callFindBankTransfers env (st.getSession nilUUID)) BankTransfers.bankTransfers tenants =
        .error e →
      XeroBankTransfersHandler env st = .panicked e) ∧
    (∀ (env : Env) (st : Store) (tenants : List Tenant) (e : SdkError),
      callGetTenants env (st.getSession nilUUID) = .ok tenants →
      fetchLoop (callFindBrandingThemes env (st.getSession nilUUID)) (fun themes => themes) tenants =
        .error e →
      XeroBrandingThemeHandler env st = .panicked e) ∧
    (∀ (env : Env) (st : Store) (tenants : List Tenant) (e : SdkError),
      callGetTenants env (st.getSession nilUUID) = .ok tenants →
      fetchLoop (callFindContactGroups env (st.getSession nilUUID)) ContactGroups.contactGroups tenants =
        .error e →
      XeroContactGroupsHandler env st = .panicked e) ∧
    (∀ (env : Env) (st : Store) (tenants : List Tenant) (e : SdkError),
      callGetTenants env (st.getSession nilUUID) = .ok tenants →
      fetchLoop (callFindCreditNotes env (st.getSession nilUUID)) CreditNotes.creditNotes tenants =
        .error e →
      XeroCreditNotesHandler env st = .panicked e) ∧
    (∀ (env : Env) (st : Store) (tenants : List Tenant) (e : SdkError),
      callGetTenants env (st.getSession nilUUID) = .ok tenants →
      fetchLoop (callFindCurrencies env (st.getSession nilUUID)) Currencies.currencies tenants =
        .error e →
      XeroCurrencyHandler env st = .panicked e) ∧
    (∀ (env : Env) (st : Store) (tenants : List Tenant) (e : SdkError),
      callGetTenants env (st.getSession nilUUID) = .ok tenants →
      fetchLoop (callFindEmployees env (st.getSession nilUUID)) Employees.Employess tenants =
        .error e →
      XeroEmployeesHandler env st = .panicked e) ∧
    (∀ (env : Env) (st : Store) (tenants : List Tenant) (e : SdkError),
      callGetTenants env (st.getSession nilUUID) = .ok tenants →
      fetchLoop (callFindInvoiceReminders env (st.getSession nilUUID)) InvoiceReminders.invoiceReminders tenants =
        .error e →
      XeroInvoiceRemindersHandler env st = .panicked e) ∧
    (∀ (env : Env) (st : Store) (tenants : List Tenant) (e : SdkError),
      callGetTenants env (st.getSession nilUUID) = .ok tenants →
      fetchLoop (callFindItems env (st.getSession nilUUID)) Items.items tenants =
        .error e →
      XeroInvoiceItemsHandler env st = .panicked e) ∧
    (∀ (env : Env) (cid : UUID) (st : Store) (t0 : Tenant) (rest : List Tenant) (e : SdkError),
      callGetTenants env (st.getSession nilUUID) = .ok (t0 :: rest) →
      callCreateContacts env (st.getSession nilUUID) t0.TenantID
        ⟨[{ Name := "Test " ++ cid, FirstName := "Test FirstName",
            LastName := "Test LastName", EmailAddress := "Test Email " ++ cid }]⟩ =
        .error e →
      XeroContactsCreateHandler env cid st = .panicked e) := by
  refine ⟨?_, ?_, ?_, ?_, ?_, ?_, ?_, ?_, ?_, ?_, ?_, ?_, ?_, ?_, ?_, ?_, ?_⟩
  · intro env code st e h
    simp [XeroAuthCallbackHandler, h]
  · intro env st e h
    simp [XeroRefreshTokenHandler, h]
  · intro env cid st e h
    refine ⟨?_, ?_, ?_, ?_, ?_, ?_, ?_, ?_, ?_, ?_, ?_, ?_, ?_, ?_, ?_⟩
    · simp [XeroConnectionsHandler, h]
    · simp [XeroContactsCreateHandler, h]
    · simp [XeroContactsHandler, h]
    · simp [XeroInvoicesHandler, h]
    · simp [XeroAccountsHandler, h]
    · simp [XeroOrganisationsHandler, h]
    · simp [XeroBankTransactionsHandler, h]
    · simp [XeroBankTransfersHandler, h]
    · simp [XeroBrandingThemeHandler, h]
    · simp [XeroContactGroupsHandler, h]
    · simp [XeroCreditNotesHandler, h]
    · simp [XeroCurrencyHandler, h]
    · simp [XeroEmployeesHandler, h]
    · simp [XeroInvoiceRemindersHandler, h]
    · simp [XeroInvoiceItemsHandler, h]
  · intro env st tenants e hT hL
    simp [XeroContactsHandler, hT, hL]
  · intro env st tenants e hT hL
    simp [XeroInvoicesHandler, hT, hL]
  · intro env st tenants e hT hL
    simp [XeroAccountsHandler, hT, hL]
  · intro env st tenants e hT hL
    simp [XeroOrganisationsHandler, hT, hL]
  · intro env st tenants e hT hL
    simp [XeroBankTransactionsHandler, hT, hL]
  · intro env st tenants e hT hL
    simp [XeroBankTransfersHandler, hT, hL]
  · intro env st tenants e hT hL
    simp [XeroBrandingThemeHandler, hT, hL]
  · intro env st tenants e hT hL
    simp [XeroContactGroupsHandler, hT, hL]
  · intro env st tenants e hT hL
    simp [XeroCreditNotesHandler, hT, hL]
  · intro env st tenants e hT hL
    simp [XeroCurrencyHandler, hT, hL]
  · intro env st tenants e hT hL
    simp [XeroEmployeesHandler, hT, hL]
  · intro env st tenants e hT hL
    simp [XeroInvoiceRemindersHandler, hT, hL]
  · intro env st tenants e hT hL
    simp [XeroInvoiceItemsHandler, hT, hL]
  · intro env cid st t0 rest e hT hC
    simp [XeroContactsCreateHandler, hT, hC]

/-- C6 witness: in the fixture environment whose tenant resolution
succeeds but whose contact fetch fails, the contacts handler panics with
the fetch error. -/
theorem C6_witness :
    XeroContactsHandler envFetchFail storeA = .panicked (.fetchError "contacts failed") := by
  obtain ⟨hCallback, hRefresh, hTenants, hContacts, hRest⟩ := C6_panic_on_error
  exact hContacts envFetchFail storeA [tenant1] (.fetchError "contacts failed")
    (by rfl) (by rfl)

/-- C7: with no stored session a GET to / renders the not-connected
index page, and after a successful authorization callback has persisted
the session, the callback response and a subsequent GET to / both render
the connected page carrying the token. -/
theorem C7_home_status :
    HomeHandler [] = .render "index" none ∧
    (∀ (env : Env) (code : String) (t : Token) (st : Store),
      Provider.GetTokenFromCode env code = .ok t →
      XeroAuthCallbackHandler env code st =
        (.render "connected" t, st.createSession nilUUID t) ∧
      HomeHandler (st.createSession nilUUID t) = .render "connected" (some t)) := by
  refine ⟨rfl, ?_⟩
  intro env code t st h
  constructor
  · simp [XeroAuthCallbackHandler, h]
  · simp [HomeHandler, getSession_createSession]

/-- C7 witness: the fixture exchange succeeds for the fake code, the
callback persists the session, and the home page then shows the
connected state with the token. -/
theorem C7_witness :
    XeroAuthCallbackHandler envDemo "good-code" [] =
      (.render "connected" tokenA, Store.createSession [] nilUUID tokenA) ∧
    HomeHandler (Store.createSession [] nilUUID tokenA) = .render "connected" (some tokenA) :=
  C7_home_status.2 envDemo "good-code" tokenA [] (by rfl)

/-- C8: with a stored session and a successful refresh exchange, the
refresh handler persists the refreshed token under the same nil user key
and responds with a redirect to /. -/
theorem C8_refresh_redirect (env : Env) (st : Store) (t t' : Token)
    (hs : st.getSession nilUUID = some t)
    (hr : Provider.Refresh env (st.getSession nilUUID) = .ok t') :
    XeroRefreshTokenHandler env st = (.redirect "/", st.createSession nilUUID t') ∧
    (XeroRefreshTokenHandler env st).2.getSession nilUUID = some t' := by
  rw [hs] at hr
  have h1 : XeroRefreshTokenHandler env st =
      (.redirect "/", st.createSession nilUUID t') := by
    simp only [XeroRefreshTokenHandler, hs, hr, Store.updateSession]
  exact ⟨h1, by rw [h1]; exact getSession_createSession st nilUUID t'⟩

/-- C8 witness: refreshing the fixture session replaces the stored
expired token with the refreshed one and redirects home. -/
theorem C8_witness :
    XeroRefreshTokenHandler envDemo storeA =
      (.redirect "/", storeA.createSession nilUUID tokenB) ∧
    (XeroRefreshTokenHandler envDemo storeA).2.getSession nilUUID = some tokenB :=
  C8_refresh_redirect envDemo storeA tokenA tokenB (by rfl) (by rfl)

end XeroSdk
